import Mathlib

/-!
Verification development for the torch-mlir ONNX `com.microsoft`-domain
operator rewrite rules (`lib/Conversion/TorchOnnxToTorch/ComMicrosoftDomain.cpp`)
and the backend type-conversion finalization passes
(`lib/Dialect/TorchConversion/Transforms/BackendTypeConversionPasses.cpp`).

The C++ rewrite rules are shallowly embedded: an operator record carries the
operand types, the named attributes and the declared result types of the
matched operation; each rule is a pure function from the record to a
`RuleResult` holding the ordered list of operations the rule created through
the rewriter and the final outcome (a replacement, a match failure with an
optional diagnostic, or a crash for an out-of-bounds access the C++ would
assert on).
-/

/-- Element dtypes of the torch value-tensor types that occur in the rules. -/
inductive DType where
  | f32 | f64 | si64 | si32 | si8 | ui8 | i1 | unknown
  deriving DecidableEq, Repr

def DType.isFloat : DType → Bool
  | .f32 => true
  | .f64 => true
  | _ => false

def DType.isInt : DType → Bool
  | .si64 => true
  | .si32 => true
  | .si8 => true
  | .ui8 => true
  | _ => false

/-- A `Torch::ValueTensorType`: optionally known sizes (a dimension equal to
`-1` is `Torch::kUnknownSize`, i.e. dynamic) and an element dtype. -/
structure TensorTy where
  sizes : Option (List Int)
  dtype : DType
  deriving DecidableEq, Repr

/-- `hasSizes`. -/
def TensorTy.hasSizes (t : TensorTy) : Bool := t.sizes.isSome

/-- `hasSizes && areAllSizesKnown`: the size list is present and no dimension
is `Torch::kUnknownSize` (−1). -/
def TensorTy.allSizesKnown (t : TensorTy) : Bool :=
  match t.sizes with
  | none => false
  | some ds => ds.all (fun d => d ≠ -1)

/-- A named attribute value of the matched ONNX operation. -/
inductive AttrVal where
  | int (n : Int)
  | float (q : Rat)
  deriving DecidableEq, Repr

/-- The operator record an `OpBinder` presents to a rewrite rule: ordered
operand (tensor) types, named attributes, and declared result types.  Operand
`i` of the record is denoted by the IR value `TExpr.input i`. -/
structure OpRecord where
  operandTys : List TensorTy
  attrs : List (String × AttrVal)
  resultTys : List TensorTy
  deriving DecidableEq, Repr

/-- `OpBinder::s64IntegerAttr name default`: yields the default when the
attribute is absent, the integer when present with integer type, and fails
(`none`) when the attribute is present with a non-integer type. -/
def OpRecord.intAttr (rec : OpRecord) (name : String) (dflt : Int) : Option Int :=
  match rec.attrs.lookup name with
  | none => some dflt
  | some (.int n) => some n
  | some _ => none

/-- `OpBinder::f32FloatAttr name default` (float scalars modelled as `Rat`). -/
def OpRecord.floatAttr (rec : OpRecord) (name : String) (dflt : Rat) : Option Rat :=
  match rec.attrs.lookup name with
  | none => some dflt
  | some (.float q) => some q
  | some _ => none

/-- IR values/operations created by the rules through the rewriter, one
constructor per torch-dialect operation kind that
`populateComMicrosoftDomain` emits. -/
inductive TExpr where
  | input (i : Nat)
  | constInt (n : Int)
  | constFloat (q : Rat)
  | constBool (b : Bool)
  | noneV
  | listC (xs : List TExpr)
  | reshape (x sizes : TExpr)
  | item (x : TExpr)
  | gtInt (a b : TExpr)
  | neInt (a b : TExpr)
  | andB (a b : TExpr)
  | zeros (sizes dtype : TExpr)
  | toDtype (x dtype : TExpr)
  | addScalar (x other alpha : TExpr)
  | subScalar (x other alpha : TExpr)
  | arange (endv dtype : TExpr)
  | repeatT (x repeats : TExpr)
  | view (x sizes : TExpr)
  | addTensor (a b alpha : TExpr)
  | ltTensor (a b : TExpr)
  | tensorLit (data dtype : TExpr)
  | whereSelf (cond a b : TExpr)
  | intBool (x : TExpr)
  | full (sizes fill dtype : TExpr)
  | rotary (x posIds cosCache sinCache interleaved isPackedBatching
      numHeads rotaryEmbeddingDim scale : TExpr)
  | sdpa (q k v : TExpr) (scale : Option Rat)
  | cat (tensors : TExpr) (dim : Int)
  | quantizePerTensor (x scale zp dty : TExpr)
  | intRepr (x : TExpr)
  | dequantize (x scale zp : TExpr)
  | addT (a b alpha : TExpr)
  | mulT (a b : TExpr)
  | leakyRelu (x alpha : TExpr)
  | sigmoid (x : TExpr)
  | sizeInt (x : TExpr) (dim : Int)
  | avgPool (rank : Nat) (x kernel strides padding : TExpr)
  | onnxAveragePool (x : TExpr)
  | transposeInt (x : TExpr) (dimA dimB : Nat)
  | matmul (a b : TExpr)

/-- Outcome of one rule invocation: `replaced` (the matched operation was
replaced by the listed result values), `failed` (a match failure, carrying the
`notifyMatchFailure` diagnostic, or `none` for a bare `failure()`), or
`crash` (an out-of-bounds container access the C++ would assert on). -/
inductive Outcome where
  | replaced (vals : List TExpr)
  | failed (reason : Option String)
  | crash

/-- Result of running a rule: the operations it created through the rewriter,
in creation order, and the outcome. -/
structure RuleResult where
  emitted : List TExpr
  outcome : Outcome

/-! ## Quantization numeric contract

`createDequantizeTensor` and `AtenQuantizePerTensorOp` lowering are not part
of the sampled source; their numeric semantics are modelled from the spec. -/

/-- Modelled from the spec: `clamp_to(dtype)` saturates an integer to the
inclusive range `[lo, hi]` of the target integer dtype. -/
def clampTo (lo hi x : Int) : Int := max lo (min hi x)

/-- Modelled from the spec: the quantization range of an integer dtype
(signed/unsigned 8-bit, signed 32-bit). -/
def DType.qrange : DType → Option (Int × Int)
  | .si8 => some (-128, 127)
  | .ui8 => some (0, 255)
  | .si32 => some (-(2 ^ 31), 2 ^ 31 - 1)
  | _ => none

/-- Modelled from the spec:
`dequantize(raw, scale, zero_point) = (raw − zero_point) × scale`. -/
def dequantize (raw : Int) (scale : Rat) (zeroPoint : Int) : Rat :=
  ((raw : Rat) - (zeroPoint : Rat)) * scale

/-- Modelled from the spec:
`quantize(value, scale, zero_point, dtype) = clamp_to(dtype)(round(value/scale) + zero_point)`. -/
def quantize (value : Rat) (scale : Rat) (zeroPoint : Int) (lo hi : Int) : Int :=
  clampTo lo hi (round (value / scale) + zeroPoint)

/-! ## Helper procedures used by the rules

`extractPerTensorQuantizationArguments`, `createDequantizeTensor` and
`createTorchTransposeOp` live in `TorchOnnxToTorch/Utils.cpp`, which is not
part of the sampled source; their validation conditions are modelled from the
spec.  On success each helper's principal created operation is recorded in the
emission list (scalar extractions, the dequantize value, the transpose). -/

def dfltTy : TensorTy := ⟨none, .unknown⟩

/-- Modelled from the spec: `extractPerTensorQuantizationArguments` accepts a
floating-point scalar scale tensor and an integer scalar zero-point tensor of
per-tensor granularity (rank 0 or a single element) and fails otherwise. -/
def perTensorQuantOk (scaleTy zpTy : TensorTy) : Bool :=
  (scaleTy.sizes == some [] || scaleTy.sizes == some [1]) && scaleTy.dtype.isFloat &&
  ((zpTy.sizes == some [] || zpTy.sizes == some [1]) && zpTy.dtype.isInt)

/-- The scalar-extraction values `extractPerTensorQuantizationArguments`
produces for operand indices `(si, zi)` (scale, zero-point). -/
def extractedQuantArgs (si zi : Nat) : TExpr × TExpr :=
  (.item (.input si), .item (.input zi))

/-- `torch_upstream::ScalarType` code of the quantized torch type that
`getQTorchTypeFromTorchIntType` assigns to an integer result dtype
(`QInt8 = 12`, `QUInt8 = 13`, `QInt32 = 14`); `none` when the dtype has no
quantized counterpart (the C++ would then dereference a null type). -/
def qScalarTypeCode : DType → Option Int
  | .si8 => some 12
  | .ui8 => some 13
  | .si32 => some 14
  | _ => none

/-- A match failure with a diagnostic and no created operations. -/
def failR (msg : String) : RuleResult := ⟨[], .failed (some msg)⟩

/-! ## The `com.microsoft` operator rewrite rules -/

/-- The `RotaryEmbedding` rewrite rule. -/
def rotaryEmbedding (rec : OpRecord) : RuleResult :=
  if rec.operandTys.length < 4 then failR "Failed to get required inputs"
  else
    match rec.intAttr "interleaved" 0, rec.intAttr "is_packed_batching" 0,
        rec.intAttr "num_heads" 0, rec.intAttr "rotary_embedding_dim" 0,
        rec.floatAttr "scale" 1 with
    | some interleaved, some isPackedBatching, some numHeads,
      some rotaryEmbeddingDim, some scale =>
      if rec.resultTys.length ≠ 1 then failR "result type bind failure"
      else
        let cstInterleaved := TExpr.constInt interleaved
        let cstIsPackedBatching := TExpr.constInt isPackedBatching
        let cstNumHeads := TExpr.constInt numHeads
        let cstRotaryEmbeddingDim := TExpr.constInt rotaryEmbeddingDim
        let cstScale := TExpr.constFloat scale
        let res := TExpr.rotary (.input 0) (.input 1) (.input 2) (.input 3)
          cstInterleaved cstIsPackedBatching cstNumHeads cstRotaryEmbeddingDim cstScale
        ⟨[cstInterleaved, cstIsPackedBatching, cstNumHeads, cstRotaryEmbeddingDim,
          cstScale, res], .replaced [res]⟩
    | _, _, _, _, _ => failR "Failed to get required inputs"

/-- One optional-transpose step of `FusedMatMul` (for `side` being `lhs` or
`rhs`): the identity when the flag is unset; otherwise `createTorchTransposeOp`
on the last two dimensions, failing on an unranked tensor or on invalid
dimensions (rank below two).  On success it yields the (possibly transposed)
value together with the operations created. -/
def fmTransposeStep (flag : Int) (idx : Nat) (ty : TensorTy) (side : String) :
    Except (Option String) (TExpr × List TExpr) :=
  if flag = 0 then .ok (.input idx, [])
  else match ty.sizes with
    | none => .error (some ("Unimplemented: unranked " ++ side ++ " tensor"))
    | some ds =>
      if ds.length < 2 then
        .error (some ("Failed to create TorchTranspose op for " ++ side))
      else
        .ok (.transposeInt (.input idx) (ds.length - 2) (ds.length - 1),
          [.transposeInt (.input idx) (ds.length - 2) (ds.length - 1)])

/-- The `FusedMatMul` rewrite rule. -/
def fusedMatMul (rec : OpRecord) : RuleResult :=
  if rec.operandTys.length ≠ 2 ∨ rec.resultTys.length ≠ 1 then ⟨[], .failed none⟩
  else
    match rec.intAttr "transA" 0, rec.intAttr "transB" 0,
        rec.intAttr "transBatchA" 0, rec.intAttr "transBatchB" 0 with
    | some transA, some transB, some transBatchA, some transBatchB =>
      -- Transposing the LHS argument.
      match fmTransposeStep transA 0 (rec.operandTys.getD 0 dfltTy) "lhs" with
      | .error r => ⟨[], .failed r⟩
      | .ok (transposedLhs, e1) =>
        -- Transposing the RHS argument.
        match fmTransposeStep transB 1 (rec.operandTys.getD 1 dfltTy) "rhs" with
        | .error r => ⟨e1, .failed r⟩
        | .ok (transposedRhs, e2) =>
          if transBatchA ≠ 0 ∨ transBatchB ≠ 0 then
            ⟨e1 ++ e2, .failed (some ("Unimplemented: support not present for " ++
              "transBatchA and transBatchB attribute"))⟩
          else
            ⟨e1 ++ e2 ++ [.matmul transposedLhs transposedRhs],
             .replaced [.matmul transposedLhs transposedRhs]⟩
    | _, _, _, _ => ⟨[], .failed none⟩

/-- The `QLinearAdd` rewrite rule. -/
def qLinearAdd (rec : OpRecord) : RuleResult :=
  if rec.resultTys.length ≠ 1 then ⟨[], .failed none⟩
  else
    let resultType := rec.resultTys.getD 0 dfltTy
    if rec.operandTys.length ≠ 8 then failR "Unimplemented: expected 8 input operands"
    else if ¬ perTensorQuantOk (rec.operandTys.getD 1 dfltTy) (rec.operandTys.getD 2 dfltTy) then
      failR "Incompatible arguments for per-tensor quantization"
    else
      let (aScale, aZp) := extractedQuantArgs 1 2
      if ¬ perTensorQuantOk (rec.operandTys.getD 4 dfltTy) (rec.operandTys.getD 5 dfltTy) then
        ⟨[aScale, aZp], .failed (some "Incompatible arguments for per-tensor quantization")⟩
      else
        let (bScale, bZp) := extractedQuantArgs 4 5
        if ¬ perTensorQuantOk (rec.operandTys.getD 6 dfltTy) (rec.operandTys.getD 7 dfltTy) then
          ⟨[aScale, aZp, bScale, bZp],
           .failed (some "Incompatible arguments for per-tensor quantization")⟩
        else
          let (cScale, cZp) := extractedQuantArgs 6 7
          if ¬ (rec.operandTys.getD 0 dfltTy).hasSizes then
            ⟨[aScale, aZp, bScale, bZp, cScale, cZp],
             .failed (some "Failed to dequantize the input tensor `a` because of missing sizes")⟩
          else
            let a := TExpr.dequantize (.input 0) aScale aZp
            if ¬ (rec.operandTys.getD 3 dfltTy).hasSizes then
              ⟨[aScale, aZp, bScale, bZp, cScale, cZp, a],
               .failed (some "Failed to dequantize the input tensor `b` because of missing sizes")⟩
            else
              let b := TExpr.dequantize (.input 3) bScale bZp
              let alpha := TExpr.constFloat 1
              let c := TExpr.addT a b alpha
              match qScalarTypeCode resultType.dtype with
              | none => ⟨[aScale, aZp, bScale, bZp, cScale, cZp, a, b, alpha, c], .crash⟩
              | some code =>
                let dtyVal := TExpr.constInt code
                let cq := TExpr.quantizePerTensor c cScale cZp dtyVal
                let res := TExpr.intRepr cq
                ⟨[aScale, aZp, bScale, bZp, cScale, cZp, a, b, alpha, c, dtyVal, cq, res],
                 .replaced [res]⟩

/-- The `QLinearMul` rewrite rule. -/
def qLinearMul (rec : OpRecord) : RuleResult :=
  if rec.resultTys.length ≠ 1 then ⟨[], .failed none⟩
  else
    let resultType := rec.resultTys.getD 0 dfltTy
    if rec.operandTys.length ≠ 8 then failR "Unimplemented: expected 8 input operands"
    else if ¬ perTensorQuantOk (rec.operandTys.getD 1 dfltTy) (rec.operandTys.getD 2 dfltTy) then
      failR "Incompatible arguments for per-tensor quantization"
    else
      let (aScale, aZp) := extractedQuantArgs 1 2
      if ¬ perTensorQuantOk (rec.operandTys.getD 4 dfltTy) (rec.operandTys.getD 5 dfltTy) then
        ⟨[aScale, aZp], .failed (some "Incompatible arguments for per-tensor quantization")⟩
      else
        let (bScale, bZp) := extractedQuantArgs 4 5
        if ¬ perTensorQuantOk (rec.operandTys.getD 6 dfltTy) (rec.operandTys.getD 7 dfltTy) then
          ⟨[aScale, aZp, bScale, bZp],
           .failed (some "Incompatible arguments for per-tensor quantization")⟩
        else
          let (cScale, cZp) := extractedQuantArgs 6 7
          if ¬ (rec.operandTys.getD 0 dfltTy).hasSizes then
            ⟨[aScale, aZp, bScale, bZp, cScale, cZp],
             .failed (some "Failed to dequantize the input tensor `a` because of missing sizes")⟩
          else
            let a := TExpr.dequantize (.input 0) aScale aZp
            if ¬ (rec.operandTys.getD 3 dfltTy).hasSizes then
              ⟨[aScale, aZp, bScale, bZp, cScale, cZp, a],
               .failed (some "Failed to dequantize the input tensor `b` because of missing sizes")⟩
            else
              let b := TExpr.dequantize (.input 3) bScale bZp
              let c := TExpr.mulT a b
              match qScalarTypeCode resultType.dtype with
              | none => ⟨[aScale, aZp, bScale, bZp, cScale, cZp, a, b, c], .crash⟩
              | some code =>
                let dtyVal := TExpr.constInt code
                let cq := TExpr.quantizePerTensor c cScale cZp dtyVal
                let res := TExpr.intRepr cq
                ⟨[aScale, aZp, bScale, bZp, cScale, cZp, a, b, c, dtyVal, cq, res],
                 .replaced [res]⟩

/-- The `QLinearLeakyRelu` rewrite rule. -/
def qLinearLeakyRelu (rec : OpRecord) : RuleResult :=
  match rec.floatAttr "alpha" 0 with
  | none => ⟨[], .failed none⟩
  | some alpha =>
    if rec.resultTys.length ≠ 1 then ⟨[], .failed none⟩
    else
      let resultType := rec.resultTys.getD 0 dfltTy
      if rec.operandTys.length ≠ 5 then failR "Unimplemented: expected 5 input operands"
      else if ¬ perTensorQuantOk (rec.operandTys.getD 1 dfltTy) (rec.operandTys.getD 2 dfltTy) then
        failR "Incompatible arguments for per-tensor quantization"
      else
        let (xScale, xZp) := extractedQuantArgs 1 2
        if ¬ perTensorQuantOk (rec.operandTys.getD 3 dfltTy) (rec.operandTys.getD 4 dfltTy) then
          ⟨[xScale, xZp], .failed (some "Incompatible arguments for per-tensor quantization")⟩
        else
          let (yScale, yZp) := extractedQuantArgs 3 4
          if ¬ (rec.operandTys.getD 0 dfltTy).hasSizes then
            ⟨[xScale, xZp, yScale, yZp],
             .failed (some "Failed to dequantize the input tensor `x` because of missing sizes")⟩
          else
            let x := TExpr.dequantize (.input 0) xScale xZp
            let constAlpha := TExpr.constFloat alpha
            let y := TExpr.leakyRelu x constAlpha
            match qScalarTypeCode resultType.dtype with
            | none => ⟨[xScale, xZp, yScale, yZp, x, constAlpha, y], .crash⟩
            | some code =>
              let dtyVal := TExpr.constInt code
              let yq := TExpr.quantizePerTensor y yScale yZp dtyVal
              let res := TExpr.intRepr yq
              ⟨[xScale, xZp, yScale, yZp, x, constAlpha, y, dtyVal, yq, res],
               .replaced [res]⟩

/-- The `QLinearSigmoid` rewrite rule. -/
def qLinearSigmoid (rec : OpRecord) : RuleResult :=
  if rec.resultTys.length ≠ 1 then ⟨[], .failed none⟩
  else
    let resultType := rec.resultTys.getD 0 dfltTy
    if rec.operandTys.length ≠ 5 then failR "Unimplemented: expected 5 input operands"
    else if ¬ perTensorQuantOk (rec.operandTys.getD 1 dfltTy) (rec.operandTys.getD 2 dfltTy) then
      failR "Incompatible arguments for per-tensor quantization"
    else
      let (xScale, xZp) := extractedQuantArgs 1 2
      if ¬ perTensorQuantOk (rec.operandTys.getD 3 dfltTy) (rec.operandTys.getD 4 dfltTy) then
        ⟨[xScale, xZp], .failed (some "Incompatible arguments for per-tensor quantization")⟩
      else
        let (yScale, yZp) := extractedQuantArgs 3 4
        if ¬ (rec.operandTys.getD 0 dfltTy).hasSizes then
          ⟨[xScale, xZp, yScale, yZp],
           .failed (some "Failed to dequantize the input tensor `x` because of missing sizes")⟩
        else
          let x := TExpr.dequantize (.input 0) xScale xZp
          let y := TExpr.sigmoid x
          match qScalarTypeCode resultType.dtype with
          | none => ⟨[xScale, xZp, yScale, yZp, x, y], .crash⟩
          | some code =>
            let dtyVal := TExpr.constInt code
            let yq := TExpr.quantizePerTensor y yScale yZp dtyVal
            let res := TExpr.intRepr yq
            ⟨[xScale, xZp, yScale, yZp, x, y, dtyVal, yq, res], .replaced [res]⟩

/-- The base indices visited by the `QLinearConcat` gathering loop
`for (unsigned i = 2; i < operands.size(); i = i + 3)`: every `i ≡ 2 (mod 3)`
below the operand count. -/
def qlcLoopIndices (n : Nat) : List Nat :=
  (List.range n).filter (fun i => i % 3 = 2)

/-- The operand-gathering loop body of `QLinearConcat`: at each visited base
index `i` it reads `operands[i]`, `operands[i+1]`, `operands[i+2]`; an index
at or past the operand count is an out-of-bounds `SmallVector` access
(`none`).  On success it returns the list of base indices visited. -/
def qlcGather (tys : List TensorTy) : List Nat → Option (List Nat)
  | [] => some []
  | i :: rest =>
    match tys.get? i, tys.get? (i + 1), tys.get? (i + 2) with
    | some _, some _, some _ => (qlcGather tys rest).map (i :: ·)
    | _, _, _ => none

/-- The per-input dequantization loop of `QLinearConcat`: for each gathered
base index `i`, validate the per-tensor scale/zero-point at `i+1`/`i+2`,
extract them, and dequantize `operands[i]`.  Returns either the created
operations paired with the dequantized values, or the operations created
before the failing iteration paired with the diagnostic. -/
def qlcDequantLoop (tys : List TensorTy) :
    List Nat → Except (List TExpr × String) (List TExpr × List TExpr)
  | [] => .ok ([], [])
  | i :: rest =>
    if ¬ perTensorQuantOk (tys.getD (i + 1) dfltTy) (tys.getD (i + 2) dfltTy) then
      .error ([], "Incompatible scale and zero-points argument for per-tensor quantization")
    else
      let (scale, zp) := extractedQuantArgs (i + 1) (i + 2)
      if ¬ (tys.getD i dfltTy).hasSizes then
        .error ([scale, zp], "Failed to dequantize the input tensor because of missing sizes")
      else
        let dq := TExpr.dequantize (.input i) scale zp
        match qlcDequantLoop tys rest with
        | .error (es, m) => .error (scale :: zp :: dq :: es, m)
        | .ok (es, dqs) => .ok (scale :: zp :: dq :: es, dq :: dqs)

/-- The `QLinearConcat` rewrite rule.  `numInputs` is computed with the
source's `unsigned` arithmetic: `(operands.size() - 2) / 3` wraps modulo
`2^64` when fewer than two operands are present. -/
def qLinearConcat (rec : OpRecord) : RuleResult :=
  if rec.resultTys.length ≠ 1 then ⟨[], .failed none⟩
  else
    let resultType := rec.resultTys.getD 0 dfltTy
    match rec.intAttr "axis" 0 with
    | none => ⟨[], .failed none⟩
    | some axis =>
      match qlcGather rec.operandTys (qlcLoopIndices rec.operandTys.length) with
      | none => ⟨[], .crash⟩
      | some idxs =>
        let numInputs := ((rec.operandTys.length + (2 ^ 64 - 2)) % 2 ^ 64) / 3
        if idxs.length ≠ numInputs then
          failR "Incompatible number of input operands, scales and/or zero-points"
        else
          match qlcDequantLoop rec.operandTys idxs with
          | .error (es, m) => ⟨es, .failed (some m)⟩
          | .ok (es, dequantizedInputs) =>
            match dequantizedInputs.head? with
            | none => ⟨es, .crash⟩
            | some _ =>
              let tensorList := TExpr.listC dequantizedInputs
              let cstAxis := TExpr.constInt axis
              let concat := TExpr.cat tensorList axis
              if ¬ perTensorQuantOk (rec.operandTys.getD 0 dfltTy)
                  (rec.operandTys.getD 1 dfltTy) then
                ⟨es ++ [tensorList, cstAxis, concat],
                 .failed (some ("Incompatible scale and zero-points argument for " ++
                   "per-tensor quantization"))⟩
              else
                let (yScale, yZp) := extractedQuantArgs 0 1
                match qScalarTypeCode resultType.dtype with
                | none => ⟨es ++ [tensorList, cstAxis, concat, yScale, yZp], .crash⟩
                | some code =>
                  let dtyVal := TExpr.constInt code
                  let result := TExpr.quantizePerTensor concat yScale yZp dtyVal
                  let res := TExpr.intRepr result
                  ⟨es ++ [tensorList, cstAxis, concat, yScale, yZp, dtyVal, result, res],
                   .replaced [res]⟩

/-- The `QLinearAveragePool` rewrite rule (delegates the pooling itself to a
synthesized `onnx.AveragePool` torch custom operation). -/
def qLinearAveragePool (rec : OpRecord) : RuleResult :=
  match rec.intAttr "channels_last" 0 with
  | none => ⟨[], .failed none⟩
  | some channelsLast =>
    if rec.resultTys.length ≠ 1 then ⟨[], .failed none⟩
    else
      let resultType := rec.resultTys.getD 0 dfltTy
      if channelsLast ≠ 0 then
        failR "Unimplemented: support not present for channels_last attribute"
      else if rec.operandTys.length ≠ 5 then
        failR "Unimplemented: expected 5 input operands"
      else if ¬ perTensorQuantOk (rec.operandTys.getD 1 dfltTy) (rec.operandTys.getD 2 dfltTy) then
        failR "Incompatible arguments for per-tensor quantization"
      else
        let (xScale, xZp) := extractedQuantArgs 1 2
        if ¬ perTensorQuantOk (rec.operandTys.getD 3 dfltTy) (rec.operandTys.getD 4 dfltTy) then
          ⟨[xScale, xZp], .failed (some "Incompatible arguments for per-tensor quantization")⟩
        else
          let (yScale, yZp) := extractedQuantArgs 3 4
          if ¬ (rec.operandTys.getD 0 dfltTy).hasSizes then
            ⟨[xScale, xZp, yScale, yZp],
             .failed (some "Failed to dequantize the input tensor `x` because of missing sizes")⟩
          else
            let x := TExpr.dequantize (.input 0) xScale xZp
            let averagePool := TExpr.onnxAveragePool x
            match qScalarTypeCode resultType.dtype with
            | none => ⟨[xScale, xZp, yScale, yZp, x, averagePool], .crash⟩
            | some code =>
              let dtyVal := TExpr.constInt code
              let yq := TExpr.quantizePerTensor averagePool yScale yZp dtyVal
              let res := TExpr.intRepr yq
              ⟨[xScale, xZp, yScale, yZp, x, averagePool, dtyVal, yq, res],
               .replaced [res]⟩

/-- The kernel-size construction loop of `QLinearGlobalAveragePool` over the
spatial dimensions `[2, inputRank)`: a statically unknown input dimension
yields a dimension constant plus an `AtenSizeIntOp`; a known one yields the
constant `inputShape[i] - resultShape[i] + 1`, where reading `resultShape[i]`
past the declared result rank is an out-of-bounds `ArrayRef` access (`none`).
Returns (kernel-size values, created operations). -/
def gapKernelLoop (x : TExpr) (inputShape resultShape : List Int) :
    List Nat → Option (List TExpr × List TExpr)
  | [] => some ([], [])
  | i :: rest =>
    match inputShape.get? i with
    | none => none
    | some d =>
      if d = -1 then
        let dim := TExpr.constInt (i : Int)
        let inputDimSize := TExpr.sizeInt x (i : Int)
        (gapKernelLoop x inputShape resultShape rest).map
          (fun p => (inputDimSize :: p.1, dim :: inputDimSize :: p.2))
      else
        match resultShape.get? i with
        | none => none
        | some r =>
          let k := TExpr.constInt (d - r + 1)
          (gapKernelLoop x inputShape resultShape rest).map
            (fun p => (k :: p.1, k :: p.2))

/-- The `QLinearGlobalAveragePool` rewrite rule.  `binder.tensorOperands(operands, 5)`
requires exactly five operands. -/
def qLinearGlobalAveragePool (rec : OpRecord) : RuleResult :=
  if rec.operandTys.length ≠ 5 ∨ rec.resultTys.length ≠ 1 then ⟨[], .failed none⟩
  else
    match rec.intAttr "channels_last" 0 with
    | none => ⟨[], .failed none⟩
    | some channelsLast =>
      let resultType := rec.resultTys.getD 0 dfltTy
      if channelsLast ≠ 0 then
        failR "Unimplemented: support not present for channels_last attribute"
      else
        match (rec.operandTys.getD 0 dfltTy).sizes with
        | none => failR "Expected input argument `x` to have sizes"
        | some inputShape =>
          match resultType.sizes with
          | none => failR "Expected result type having sizes"
          | some resultShape =>
            if ¬ perTensorQuantOk (rec.operandTys.getD 1 dfltTy)
                (rec.operandTys.getD 2 dfltTy) then
              failR "Incompatible arguments for per-tensor quantization"
            else
              let (xScale, xZp) := extractedQuantArgs 1 2
              if ¬ perTensorQuantOk (rec.operandTys.getD 3 dfltTy)
                  (rec.operandTys.getD 4 dfltTy) then
                ⟨[xScale, xZp],
                 .failed (some "Incompatible arguments for per-tensor quantization")⟩
              else
                let (yScale, yZp) := extractedQuantArgs 3 4
                -- createDequantizeTensor: the input type is known to have sizes here
                let x := TExpr.dequantize (.input 0) xScale xZp
                let cstZero := TExpr.constInt 0
                let cstOne := TExpr.constInt 1
                let inputRank := inputShape.length
                match gapKernelLoop x inputShape resultShape
                    (List.range' 2 (inputRank - 2)) with
                | none => ⟨[xScale, xZp, yScale, yZp, x, cstZero, cstOne], .crash⟩
                | some (cstKernel, kernelEmits) =>
                  let kernelSizeList := TExpr.listC cstKernel
                  let paddingList := TExpr.listC (List.replicate (inputRank - 2) cstZero)
                  let stridesList := TExpr.listC (List.replicate (inputRank - 2) cstOne)
                  let cstFalse := TExpr.constBool false
                  let cstNone := TExpr.noneV
                  let acc := [xScale, xZp, yScale, yZp, x, cstZero, cstOne] ++ kernelEmits ++
                    [kernelSizeList, paddingList, stridesList, cstFalse, cstNone]
                  if inputRank = 3 ∨ inputRank = 4 ∨ inputRank = 5 then
                    let avgpool := TExpr.avgPool inputRank x kernelSizeList stridesList paddingList
                    match qScalarTypeCode resultType.dtype with
                    | none => ⟨acc ++ [avgpool], .crash⟩
                    | some code =>
                      let dtyVal := TExpr.constInt code
                      let yq := TExpr.quantizePerTensor avgpool yScale yZp dtyVal
                      let res := TExpr.intRepr yq
                      ⟨acc ++ [avgpool, dtyVal, yq, res], .replaced [res]⟩
                  else
                    ⟨acc, .failed none⟩

/-! ### GroupQueryAttention

The rule's rotary branch synthesizes a position-ids subgraph; the values it
builds are named below exactly as constructed (the `torch_upstream`
`ScalarType` codes are `Long = 4` and `Bool = 11`). -/

/-- `is_subsequent_prompt = sequence_length > 1 && sequence_length != total_sequence_length`,
where `total_sequence_length` is `AtenItemOp` applied to operand 6. -/
def gqaSubsequentPromptExpr (sequenceLength : Int) : TExpr :=
  .andB (.gtInt (.constInt sequenceLength) (.constInt 1))
    (.neInt (.constInt sequenceLength) (.item (.input 6)))

/-- `pos_ids_a = torch.zeros((batch_size, seq_len), dtype=torch.int64)`. -/
def gqaPositionIdsA (batchSize sequenceLength : Int) : TExpr :=
  .zeros (.listC [.constInt batchSize, .constInt sequenceLength]) (.constInt 4)

/-- `seqlens_k` (operand 5, si32) converted to si64. -/
def gqaSeqlensK64 : TExpr := .toDtype (.input 5) (.constInt 4)

/-- `total_seqlens = seqlens_k + 1`. -/
def gqaTotalSeqLens : TExpr := .addScalar gqaSeqlensK64 (.constInt 1) (.constInt 1)

/-- `past_seqlens = total_seqlens - sequence_length`. -/
def gqaPastSeqLens (sequenceLength : Int) : TExpr :=
  .subScalar gqaTotalSeqLens (.constInt sequenceLength) (.constInt 1)

/-- The view-size list `[cstIntMinusOne, cstIntOne]`: the source creates
`cstIntMinusOne` with `getI64IntegerAttr(1)`, so the list is `[1, 1]` (the
adjacent source comment documents `view(-1, 1)`). -/
def gqaViewSizeList : TExpr := .listC [.constInt 1, .constInt 1]

/-- `pos_ids_b`: `arange(seq_len).repeat(batch, 1) + past_seqlens.view(view_sizes)`,
clamped to the one-tensor wherever `pos_ids >= total_seqlens.view(view_sizes)`. -/
def gqaPositionIdsB (batchSize sequenceLength : Int) : TExpr :=
  let initPosIds := TExpr.arange (.constInt sequenceLength) (.constInt 4)
  let repeated := TExpr.repeatT initPosIds (.listC [.constInt batchSize, .constInt 1])
  let pastView := TExpr.view (gqaPastSeqLens sequenceLength) gqaViewSizeList
  let added := TExpr.addTensor repeated pastView (.constInt 1)
  let totalView := TExpr.view gqaTotalSeqLens gqaViewSizeList
  let cond := TExpr.ltTensor added totalView
  let cstOneTensor := TExpr.tensorLit (.listC [.constInt 1]) (.constInt 4)
  TExpr.whereSelf cond added cstOneTensor

/-- The position-ids tensor handed to both rotary embeddings:
`where(full((batch, seq), int(is_subsequent_prompt), bool), pos_ids_b, pos_ids_a)`. -/
def gqaPositionIds (batchSize sequenceLength : Int) : TExpr :=
  let isSubsequentFull := TExpr.full
    (.listC [.constInt batchSize, .constInt sequenceLength])
    (.intBool (gqaSubsequentPromptExpr sequenceLength)) (.constInt 11)
  TExpr.whereSelf isSubsequentFull (gqaPositionIdsB batchSize sequenceLength)
    (gqaPositionIdsA batchSize sequenceLength)

/-- Operations created by the rotary branch, in creation order, ending with
the two rotary-embedding applications. -/
def gqaRotaryEmits (batchSize sequenceLength rotaryInterleaved : Int)
    (qInput kInput : TExpr) : List TExpr :=
  let cstSequenceLength := TExpr.constInt sequenceLength
  let positionIds := gqaPositionIds batchSize sequenceLength
  [.item (.input 6), .constInt 1,
   .gtInt cstSequenceLength (.constInt 1),
   .neInt cstSequenceLength (.item (.input 6)),
   gqaSubsequentPromptExpr sequenceLength,
   .constInt 4, .constInt rotaryInterleaved, .constInt 0, .constFloat 1,
   .listC [.constInt batchSize, cstSequenceLength],
   gqaPositionIdsA batchSize sequenceLength,
   gqaSeqlensK64, gqaTotalSeqLens, gqaPastSeqLens sequenceLength,
   .arange cstSequenceLength (.constInt 4),
   .listC [.constInt batchSize, .constInt 1],
   .repeatT (.arange cstSequenceLength (.constInt 4))
     (.listC [.constInt batchSize, .constInt 1]),
   .constInt 1, gqaViewSizeList,
   .view (gqaPastSeqLens sequenceLength) gqaViewSizeList,
   .addTensor (.repeatT (.arange cstSequenceLength (.constInt 4))
       (.listC [.constInt batchSize, .constInt 1]))
     (.view (gqaPastSeqLens sequenceLength) gqaViewSizeList) (.constInt 1),
   .view gqaTotalSeqLens gqaViewSizeList,
   .ltTensor (.addTensor (.repeatT (.arange cstSequenceLength (.constInt 4))
       (.listC [.constInt batchSize, .constInt 1]))
       (.view (gqaPastSeqLens sequenceLength) gqaViewSizeList) (.constInt 1))
     (.view gqaTotalSeqLens gqaViewSizeList),
   .listC [.constInt 1], .tensorLit (.listC [.constInt 1]) (.constInt 4),
   gqaPositionIdsB batchSize sequenceLength,
   .intBool (gqaSubsequentPromptExpr sequenceLength),
   .full (.listC [.constInt batchSize, cstSequenceLength])
     (.intBool (gqaSubsequentPromptExpr sequenceLength)) (.constInt 11),
   positionIds,
   .rotary qInput positionIds (.input 7) (.input 8) (.constInt rotaryInterleaved)
     (.constInt 0) (.constInt 0) (.constInt 0) (.constFloat 1),
   .rotary kInput positionIds (.input 7) (.input 8) (.constInt rotaryInterleaved)
     (.constInt 0) (.constInt 0) (.constInt 0) (.constFloat 1)]

/-- The reshape-size list for the query:
`(batch_size, num_heads, sequence_length, head_size)`. -/
def gqaQueryReshapeSizesList (batchSize numHeads sequenceLength headSize : Int) : TExpr :=
  .listC [.constInt batchSize, .constInt numHeads, .constInt sequenceLength,
    .constInt headSize]

/-- The reshaped query. -/
def gqaQInput (batchSize numHeads sequenceLength headSize : Int) : TExpr :=
  .reshape (.input 0) (gqaQueryReshapeSizesList batchSize numHeads sequenceLength headSize)

/-- The reshape-size list for key/value:
`(batch_size, kv_num_heads, sequence_length, head_size)`. -/
def gqaKVReshapeSizesList (batchSize kvNumHeads sequenceLength headSize : Int) : TExpr :=
  .listC [.constInt batchSize, .constInt kvNumHeads, .constInt sequenceLength,
    .constInt headSize]

/-- The reshaped key. -/
def gqaKInput (batchSize kvNumHeads sequenceLength headSize : Int) : TExpr :=
  .reshape (.input 1) (gqaKVReshapeSizesList batchSize kvNumHeads sequenceLength headSize)

/-- The reshaped value. -/
def gqaVInput (batchSize kvNumHeads sequenceLength headSize : Int) : TExpr :=
  .reshape (.input 2) (gqaKVReshapeSizesList batchSize kvNumHeads sequenceLength headSize)

/-- Rotary embedding applied to a reshaped query/key when `do_rotary` is set;
the identity otherwise. -/
def gqaRotaryApplied (doRotary rotaryInterleaved batchSize sequenceLength : Int)
    (x : TExpr) : TExpr :=
  if doRotary ≠ 0 then
    .rotary x (gqaPositionIds batchSize sequenceLength) (.input 7) (.input 8)
      (.constInt rotaryInterleaved) (.constInt 0) (.constInt 0) (.constInt 0)
      (.constFloat 1)
  else x

/-- Construction phase of the `GroupQueryAttention` rule, entered once all
validation has succeeded, with the bound attributes and the static query
dimensions.  `head_size = hidden_size / num_heads` uses C++ (truncating)
signed division. -/
def gqaBuild (rec : OpRecord) (doRotary kvNumHeads numHeads rotaryInterleaved : Int)
    (scale : Rat) (batchSize sequenceLength hiddenSize : Int) : RuleResult :=
  match (rec.operandTys.get? 3).bind TensorTy.sizes,
      (rec.operandTys.get? 4).bind TensorTy.sizes,
      (rec.resultTys.get? 1).bind TensorTy.sizes,
      (rec.resultTys.get? 2).bind TensorTy.sizes with
  | some pastKeySizes, some pastValueSizes, some res1Sizes, some res2Sizes =>
    let headSize := hiddenSize.tdiv numHeads
    let cstBatchSize := TExpr.constInt batchSize
    let cstSequenceLength := TExpr.constInt sequenceLength
    let cstHiddenSize := TExpr.constInt hiddenSize
    let cstHeadSize := TExpr.constInt headSize
    let cstNumHeads := TExpr.constInt numHeads
    let cstKVNumHeads := TExpr.constInt kvNumHeads
    let queryReshapeSizesList :=
      gqaQueryReshapeSizesList batchSize numHeads sequenceLength headSize
    let qInput := gqaQInput batchSize numHeads sequenceLength headSize
    let kvReshapeSizesList :=
      gqaKVReshapeSizesList batchSize kvNumHeads sequenceLength headSize
    let kInput := gqaKInput batchSize kvNumHeads sequenceLength headSize
    let vInput := gqaVInput batchSize kvNumHeads sequenceLength headSize
    let cstNone := TExpr.noneV
    let cstFalse := TExpr.constBool false
    let qRotary := gqaRotaryApplied doRotary rotaryInterleaved batchSize sequenceLength qInput
    let kRotary := gqaRotaryApplied doRotary rotaryInterleaved batchSize sequenceLength kInput
    let rotaryEmits := if doRotary ≠ 0 then
        gqaRotaryEmits batchSize sequenceLength rotaryInterleaved qInput kInput
      else []
    let cstEnableGQA := TExpr.constBool true
    let cstFloatZero := TExpr.constFloat 0
    let cstScale : Option Rat := if scale ≠ 0 then some scale else none
    let scaleEmits : List TExpr := if scale ≠ 0 then [TExpr.constFloat scale] else []
    let attention0 := TExpr.sdpa qRotary kRotary vInput cstScale
    let attentionResultSizesList := TExpr.listC [cstBatchSize, cstSequenceLength, cstHiddenSize]
    let attention := TExpr.reshape attention0 attentionResultSizesList
    let keyPart : TExpr × List TExpr :=
      if pastKeySizes = res1Sizes then (.input 3, [])
      else
        let cstConcatDim := TExpr.constInt 2
        let keyList := TExpr.listC [.input 3, kRotary]
        let pk := TExpr.cat keyList 2
        (pk, [cstConcatDim, keyList, pk])
    let valuePart : TExpr × List TExpr :=
      if pastValueSizes = res2Sizes then (.input 4, [])
      else
        let cstConcatDim := TExpr.constInt 2
        let valueList := TExpr.listC [.input 4, vInput]
        let pv := TExpr.cat valueList 2
        (pv, [cstConcatDim, valueList, pv])
    ⟨[cstBatchSize, cstSequenceLength, cstHiddenSize, cstHeadSize, cstNumHeads,
      cstKVNumHeads, queryReshapeSizesList, qInput, kvReshapeSizesList, kInput,
      vInput, cstNone, cstFalse] ++ rotaryEmits ++ [cstEnableGQA, cstFloatZero] ++
      scaleEmits ++ [attention0, attentionResultSizesList, attention] ++
      keyPart.2 ++ valuePart.2,
     .replaced [attention, keyPart.1, valuePart.1]⟩
  | _, _, _, _ => ⟨[], .crash⟩

/-- The `GroupQueryAttention` rewrite rule. -/
def groupQueryAttention (rec : OpRecord) : RuleResult :=
  if rec.resultTys.length ≠ 3 then failR "expected 3 result types"
  else
    match rec.intAttr "do_rotary" 0, rec.intAttr "kv_num_heads" 0,
        rec.intAttr "local_window_size" (-1), rec.intAttr "num_heads" 0,
        rec.intAttr "rotary_interleaved" 0, rec.floatAttr "scale" 0,
        rec.intAttr "smooth_softmax" 0, rec.floatAttr "softcap" 0 with
    | some doRotary, some kvNumHeads, some localWindowSize, some numHeads,
      some _rotaryInterleaved, some scale, some smoothSoftmax, some softcap =>
      if ¬ (rec.operandTys.length = 9 ∨ (doRotary = 0 ∧ rec.operandTys.length = 7)) then
        failR ("Unimplemented:  excepted input operands to be either 7 or 9 based on " ++
          "the `do_rotary` attribute")
      else if kvNumHeads = 0 then
        failR "kv_num_heads is a required attribute and should be non-zero"
      else if localWindowSize ≠ -1 then
        failR ("Unimplemented: local_window_size attribute is not supported, hence " ++
          "it should have default value equal to -1")
      else if numHeads = 0 then
        failR "num_heads is a required attribute and should be non-zero"
      else if smoothSoftmax ≠ 0 then
        failR ("Unimplemented: smooth_softmax attribute is not supported, hence it " ++
          "should have default value equal to 0")
      else if softcap ≠ 0 then
        failR ("Unimplemented: softcap attribute is not supported, hence it should " ++
          "have default value equal to 0.0")
      else if ¬ (rec.operandTys.getD 0 dfltTy).allSizesKnown then
        failR "Expected `query` input to have statically known sizes"
      else
        match (rec.operandTys.getD 0 dfltTy).sizes with
          | none => failR "Expected `query` input to have statically known sizes"
          | some queryDims =>
            match queryDims.get? 0, queryDims.get? 1, queryDims.get? 2 with
            | some batchSize, some sequenceLength, some hiddenSize =>
              gqaBuild rec doRotary kvNumHeads numHeads _rotaryInterleaved scale
                batchSize sequenceLength hiddenSize
            | _, _, _ => ⟨[], .crash⟩
    | _, _, _, _, _, _, _, _ => failR "op attributes bind failure"

/-- The `com.microsoft`-domain pattern registry: each rule is registered under
its ONNX operator name with minimum opset version 1, in source order. -/
def populateComMicrosoftDomain : List (String × Nat × (OpRecord → RuleResult)) :=
  [("RotaryEmbedding", 1, rotaryEmbedding),
   ("GroupQueryAttention", 1, groupQueryAttention),
   ("QLinearAdd", 1, qLinearAdd),
   ("QLinearLeakyRelu", 1, qLinearLeakyRelu),
   ("QLinearConcat", 1, qLinearConcat),
   ("QLinearGlobalAveragePool", 1, qLinearGlobalAveragePool),
   ("QLinearSigmoid", 1, qLinearSigmoid),
   ("QLinearAveragePool", 1, qLinearAveragePool),
   ("FusedMatMul", 1, fusedMatMul),
   ("QLinearMul", 1, qLinearMul)]

/-! ## Evaluation of the emitted position-ids subgraph -/

/-- Runtime tensor values for the integer/boolean fragment of the emitted
subgraphs: integer scalars, booleans, rank-1 and rank-2 integer tensors, and
rank-2 boolean tensors. -/
inductive TVal where
  | i (n : Int)
  | b (bv : Bool)
  | v1 (xs : List Int)
  | v2 (xss : List (List Int))
  | v2b (xss : List (List Bool))
  deriving DecidableEq, Repr

/-- A constant integer list (`PrimListConstructOp` of `ConstantIntOp`s). -/
def evalConstIntList : TExpr → Option (List Int)
  | .listC xs => xs.mapM (fun e => match e with | .constInt n => some n | _ => none)
  | _ => none

/-- Split `xs` into `rows` rows of `cols` elements each (`AtenViewOp` to a
two-dimensional shape); fails unless the element count matches exactly. -/
def splitRows (rows cols : Nat) (xs : List Int) : Option (List (List Int)) :=
  match rows with
  | 0 => if xs = [] then some [] else none
  | r + 1 =>
    if xs.length < cols then none
    else (splitRows r cols (xs.drop cols)).map (xs.take cols :: ·)

/-- Elementwise select over one row against a row of alternatives. -/
def whereRow : List Bool → List Int → List Int → Option (List Int)
  | [], [], [] => some []
  | c :: cs, x :: xs, y :: ys =>
    (whereRow cs xs ys).map (fun r => (if c then x else y) :: r)
  | _, _, _ => none

/-- Elementwise select over one row against a broadcast scalar. -/
def whereRowS : List Bool → List Int → Int → Option (List Int)
  | [], [], _ => some []
  | c :: cs, x :: xs, n =>
    (whereRowS cs xs n).map (fun r => (if c then x else n) :: r)
  | _, _, _ => none

/-- Elementwise select over same-shaped matrices. -/
def whereMat : List (List Bool) → List (List Int) → List (List Int) →
    Option (List (List Int))
  | [], [], [] => some []
  | c :: cs, x :: xs, y :: ys => do
    let r ← whereRow c x y
    let rest ← whereMat cs xs ys
    pure (r :: rest)
  | _, _, _ => none

/-- Elementwise select of a matrix against a broadcast scalar. -/
def whereMatS : List (List Bool) → List (List Int) → Int → Option (List (List Int))
  | [], [], _ => some []
  | c :: cs, x :: xs, n => do
    let r ← whereRowS c x n
    let rest ← whereMatS cs xs n
    pure (r :: rest)
  | _, _, _ => none

/-- Evaluator for the integer/boolean tensor fragment that the
`GroupQueryAttention` rotary branch emits.  `env` supplies runtime values for
the record's operands (`TExpr.input`).  Broadcast support covers exactly the
shapes this subgraph produces: the right operand of the tensor add/compare is
the emitted `view`, a `1 × 1` tensor; view sizes are positive literals
(inferred `-1` extents never reach a view here, see `gqaViewSizeList`). -/
def evalE (env : Nat → Option TVal) : TExpr → Option TVal
  | .input i => env i
  | .constInt n => some (.i n)
  | .constBool bv => some (.b bv)
  | .item x => do
    match ← evalE env x with
    | .i n => some (.i n)
    | .v1 [n] => some (.i n)
    | _ => none
  | .gtInt a c => do
    match ← evalE env a, ← evalE env c with
    | .i x, .i y => some (.b (decide (x > y)))
    | _, _ => none
  | .neInt a c => do
    match ← evalE env a, ← evalE env c with
    | .i x, .i y => some (.b (decide (x ≠ y)))
    | _, _ => none
  | .andB a c => do
    match ← evalE env a, ← evalE env c with
    | .b x, .b y => some (.b (x && y))
    | _, _ => none
  | .intBool x => do
    match ← evalE env x with
    | .b bv => some (.i (if bv then 1 else 0))
    | _ => none
  | .zeros sizes _ =>
    match evalConstIntList sizes with
    | some [bs, s] => some (.v2 (List.replicate bs.toNat (List.replicate s.toNat 0)))
    | _ => none
  | .toDtype x _ => evalE env x
  | .addScalar x other alpha => do
    match ← evalE env x, ← evalE env other, ← evalE env alpha with
    | .v1 xs, .i o, .i al => some (.v1 (xs.map (· + o * al)))
    | _, _, _ => none
  | .subScalar x other alpha => do
    match ← evalE env x, ← evalE env other, ← evalE env alpha with
    | .v1 xs, .i o, .i al => some (.v1 (xs.map (· - o * al)))
    | _, _, _ => none
  | .arange endv _ => do
    match ← evalE env endv with
    | .i n => some (.v1 ((List.range n.toNat).map Int.ofNat))
    | _ => none
  | .repeatT x reps => do
    match ← evalE env x, evalConstIntList reps with
    | .v1 xs, some [bs, r] =>
      some (.v2 (List.replicate bs.toNat (List.flatten (List.replicate r.toNat xs))))
    | _, _ => none
  | .view x sizes => do
    match ← evalE env x, evalConstIntList sizes with
    | .v1 xs, some [a, c] =>
      if a ≤ 0 ∨ c ≤ 0 then none else (splitRows a.toNat c.toNat xs).map .v2
    | _, _ => none
  | .addTensor a c alpha => do
    match ← evalE env a, ← evalE env c, ← evalE env alpha with
    | .v2 xss, .v2 [[p]], .i al => some (.v2 (xss.map (·.map (· + p * al))))
    | _, _, _ => none
  | .ltTensor a c => do
    match ← evalE env a, ← evalE env c with
    | .v2 xss, .v2 [[t]] => some (.v2b (xss.map (·.map (fun v => decide (v < t)))))
    | _, _ => none
  | .tensorLit data _ =>
    match evalConstIntList data with
    | some [n] => some (.i n)
    | _ => none
  | .whereSelf cond a c => do
    match ← evalE env cond, ← evalE env a, ← evalE env c with
    | .v2b cs, .v2 xs, .v2 ys => (whereMat cs xs ys).map .v2
    | .v2b cs, .v2 xs, .i n => (whereMatS cs xs n).map .v2
    | _, _, _ => none
  | .full sizes fill _ => do
    match evalConstIntList sizes, ← evalE env fill with
    | some [bs, s], .i n =>
      some (.v2b (List.replicate bs.toNat (List.replicate s.toNat (decide (n ≠ 0)))))
    | _, _ => none
  | _ => none

/-! ## Backend type-conversion finalization pass

The conversion driver (`applyFullConversion`, `ConversionTarget`,
`applyPatternsGreedily`) and `setupBackendTypeConversion` are host-framework
code outside the sampled source and are modelled from the spec; the in-source
parts — which operations `setupFinalization` declares illegal, the
`FinalizeMaterialization` pattern replacing a materialization by its own
operand, the `ExtFTruncFPattern` cleanup, and `stripTorchAttrs` — are
translated from the source. -/

/-- Primitive type shapes bridged by the conversion. -/
inductive BTy where
  | tensor | i1 | i64 | f64 | generator | f32 | other (s : String)
  deriving DecidableEq, Repr

/-- A type: either a backend-legal builtin type or a torch-dialect source
type. -/
inductive CTy where
  | builtin (b : BTy)
  | torchT (b : BTy)
  deriving DecidableEq, Repr

/-- Modelled from the spec: the type mapping installed by the identity
`addConversion` plus `setupBackendTypeConversion`: identity on builtin types,
torch-dialect types map to their builtin counterparts. -/
def convertTy : CTy → CTy
  | .torchT b => .builtin b
  | t => t

/-- `TypeConverter::isLegal` for a type: conversion maps it to itself. -/
def CTy.isLegal (t : CTy) : Bool := convertTy t == t

/-- The ten materialization operations `setupFinalization` is instantiated
with. -/
inductive MatKind where
  | toBuiltinTensor | fromBuiltinTensor | fromI1 | toI1 | fromI64 | toI64
  | fromF64 | toF64 | i64ToGenerator | generatorToI64
  deriving DecidableEq, Repr

/-- Operation kinds in a function body: a materialization, the
`arith.extf`/`arith.truncf` pair the cleanup pattern folds, or any other
operation. -/
inductive MOpKind where
  | mat (k : MatKind)
  | extf
  | truncf
  | generic (name : String)
  deriving DecidableEq, Repr

/-- An operation: its kind, operand values (SSA id paired with the value's
type) and result values. -/
structure MOp where
  kind : MOpKind
  operands : List (Nat × CTy)
  results : List (Nat × CTy)
  deriving DecidableEq, Repr

def MOp.isMat (op : MOp) : Bool :=
  match op.kind with
  | .mat _ => true
  | _ => false

/-- `TypeConverter::isLegal(op)`: all operand and result types are legal. -/
def MOp.isLegal (op : MOp) : Bool :=
  op.operands.all (fun o => o.2.isLegal) && op.results.all (fun r => r.2.isLegal)

/-- A function body together with its dialect attributes. -/
structure MFunc where
  dialectAttrs : List String
  body : List MOp
  deriving DecidableEq, Repr

/-- Substitute an operand through the replacement environment accumulated
while replacing operations. -/
def substOperand (env : List (Nat × (Nat × CTy))) (o : Nat × CTy) : Nat × CTy :=
  match env.lookup o.1 with
  | some r => r
  | none => o

/-- Modelled from the spec: exhaustive application of the
`FinalizeMaterialization` patterns by the conversion driver over the
SSA-ordered body.  A materialization whose (substituted) operand carries a
legal type is replaced by its own bridged operand — later uses of its result
are redirected through `env`; a materialization whose operand has no legal
replacement stays in place (stranded). -/
def convertBody (env : List (Nat × (Nat × CTy))) : List MOp → List MOp
  | [] => []
  | op :: rest =>
    match op.kind, op.operands.map (substOperand env), op.results with
    | .mat k, [src], [res] =>
      if src.2.isLegal then convertBody ((res.1, src) :: env) rest
      else ⟨.mat k, [src], [res]⟩ :: convertBody env rest
    | k, ops, res => ⟨k, ops, res⟩ :: convertBody env rest

/-- Modelled from the spec: `applyFullConversion` under the finalizing target:
apply the materialization-elimination patterns, then require every remaining
operation legal — materializations are illegal (`target.addIllegalOp`),
every other operation is dynamically legal iff the type converter finds its
types legal (`markUnknownOpDynamicallyLegal`).  Failure (`none`) rolls the
body back. -/
def applyFullConversionFinalize (body : List MOp) : Option (List MOp) :=
  if (convertBody [] body).all (fun op => !op.isMat && op.isLegal) then
    some (convertBody [] body)
  else none

/-- Greedy application of `ExtFTruncFPattern`: an `arith.truncf` whose operand
is produced by an `arith.extf` and whose result type equals the `extf`'s
operand type is replaced by that original operand. -/
def foldBody (defs : List MOp) (env : List (Nat × (Nat × CTy))) : List MOp → List MOp
  | [] => []
  | op :: rest =>
    match op.kind, op.operands.map (substOperand env), op.results with
    | .truncf, [src], [res] =>
      match defs.find? (fun d => d.kind == .extf && d.results.any (fun r => r.1 == src.1)) with
      | some e =>
        match e.operands with
        | [po] =>
          if res.2 == po.2 then foldBody defs ((res.1, po) :: env) rest
          else (⟨.truncf, [src], [res]⟩ : MOp) ::
            foldBody ((⟨.truncf, [src], [res]⟩ : MOp) :: defs) env rest
        | _ => (⟨.truncf, [src], [res]⟩ : MOp) ::
            foldBody ((⟨.truncf, [src], [res]⟩ : MOp) :: defs) env rest
      | none => (⟨.truncf, [src], [res]⟩ : MOp) ::
          foldBody ((⟨.truncf, [src], [res]⟩ : MOp) :: defs) env rest
    | k, ops, res => ⟨k, ops, res⟩ :: foldBody (⟨k, ops, res⟩ :: defs) env rest

/-- Whether `ExtFTruncFPattern` fires anywhere on the body: some `truncf` is
fed by an earlier `extf` whose operand type equals the `truncf` result type. -/
def hasFoldableTruncf (defs : List MOp) : List MOp → Bool
  | [] => false
  | op :: rest =>
    match op.kind, op.operands, op.results with
    | .truncf, [src], [res] =>
      match defs.find? (fun d => d.kind == .extf && d.results.any (fun r => r.1 == src.1)) with
      | some e =>
        match e.operands with
        | [po] =>
          if res.2 == po.2 then true else hasFoldableTruncf (op :: defs) rest
        | _ => hasFoldableTruncf (op :: defs) rest
      | none => hasFoldableTruncf (op :: defs) rest
    | _, _, _ => hasFoldableTruncf (op :: defs) rest

/-- `stripTorchAttrs`: drop function dialect attributes in the `torch.`
namespace. -/
def stripTorchAttrs (attrs : List String) : List String :=
  attrs.filter (fun a => ¬ a.startsWith "torch.")

/-- `FinalizingBackendTypeConversionPass::runOnOperation`: run the full
conversion; on conversion failure `signalPassFailure` is recorded and the
driver rolls the body back, but the pass function continues; then the greedy
`ExtFTruncFPattern` cleanup runs, and finally `torch.`-namespaced dialect
attributes are stripped.  Returns (pass failed, resulting function). -/
def finalizingBackendTypeConversionPass (f : MFunc) : Bool × MFunc :=
  match applyFullConversionFinalize f.body with
  | some b => (false, ⟨stripTorchAttrs f.dialectAttrs, foldBody [] [] b⟩)
  | none => (true, ⟨stripTorchAttrs f.dialectAttrs, foldBody [] [] f.body⟩)

/-! ## Concrete records, environments and functions used in witnesses and
counterexamples -/

/-- Whether an outcome is a replacement. -/
def Outcome.isReplaced : Outcome → Bool
  | .replaced _ => true
  | _ => false

/-- Concrete `GroupQueryAttention` record: 7 operands, `do_rotary` unset,
declared present-cache result sizes equal to the past-cache sizes. -/
def gqaRecNoGrowth : OpRecord :=
  ⟨[⟨some [1, 2, 8], .f32⟩, ⟨some [1, 2, 8], .f32⟩, ⟨some [1, 2, 8], .f32⟩,
    ⟨some [1, 1, 2, 8], .f32⟩, ⟨some [1, 1, 2, 8], .f32⟩,
    ⟨some [1], .si32⟩, ⟨some [], .si32⟩],
   [("kv_num_heads", .int 1), ("num_heads", .int 2)],
   [⟨some [1, 2, 8], .f32⟩, ⟨some [1, 1, 2, 8], .f32⟩, ⟨some [1, 1, 2, 8], .f32⟩]⟩

def gqaRecIndivisible : OpRecord :=
  ⟨[⟨some [1, 2, 10], .f32⟩, ⟨some [1, 2, 10], .f32⟩, ⟨some [1, 2, 10], .f32⟩,
    ⟨some [1, 1, 2, 10], .f32⟩, ⟨some [1, 1, 2, 10], .f32⟩,
    ⟨some [1], .si32⟩, ⟨some [], .si32⟩],
   [("kv_num_heads", .int 1), ("num_heads", .int 3)],
   [⟨some [1, 2, 10], .f32⟩, ⟨some [1, 1, 2, 10], .f32⟩, ⟨some [1, 1, 2, 10], .f32⟩]⟩

def qgapRankSixRec : OpRecord :=
  ⟨[⟨some [1, 2, 3, 3, 3, 3], .ui8⟩, ⟨some [], .f32⟩, ⟨some [], .ui8⟩,
    ⟨some [], .f32⟩, ⟨some [], .ui8⟩], [], [⟨some [1, 2, 1, 1, 1, 1], .ui8⟩]⟩

def fmmTransBatchRec : OpRecord :=
  ⟨[⟨some [4, 5, 6], .f32⟩, ⟨some [4, 5, 6], .f32⟩],
   [("transA", .int 1), ("transBatchA", .int 1)], [⟨some [4, 6, 5], .f32⟩]⟩

def fmmBindFailRec : OpRecord :=
  ⟨[⟨some [2, 2], .f32⟩], [("transBatchA", .int 1)], [⟨some [2, 2], .f32⟩]⟩

def fmmTransARec : OpRecord :=
  ⟨[⟨some [4, 5, 6], .f32⟩, ⟨some [4, 5, 6], .f32⟩], [("transA", .int 1)],
   [⟨some [4, 6, 5], .f32⟩]⟩

/-- Runtime operand values of a fresh-prompt call with
`sequence_length = total_sequence_length = 2`, batch 1, `seqlens_k = [1]`. -/
def gqaEnvFreshPrompt : Nat → Option TVal := fun n =>
  if n = 5 then some (.v1 [1]) else if n = 6 then some (.i 2) else none

/-- Runtime operand values of a batch-2 continuation call: `seqlens_k = [4, 5]`,
`total_sequence_length = 7`, `sequence_length = 2`. -/
def gqaEnvBatchTwo : Nat → Option TVal := fun n =>
  if n = 5 then some (.v1 [4, 5]) else if n = 6 then some (.i 7) else none

/-- A `QLinearConcat` record with three operands: `y_scale`, `y_zero_point`
and one input tensor, missing the input's scale and zero-point. -/
def qlcThreeOperandRec : OpRecord :=
  ⟨[⟨some [], .f32⟩, ⟨some [], .ui8⟩, ⟨some [1, 2], .ui8⟩], [],
   [⟨some [1, 2], .ui8⟩]⟩

/-- The one stranded bridging operation of the C6 scenario: a
`ToBuiltinTensor` materialization whose torch-typed operand has no legal
replacement anywhere in the function. -/
def strandedFunc : MFunc :=
  ⟨["torch.assume_strict_symbolic_shapes"],
   [⟨.mat .toBuiltinTensor, [(0, .torchT .tensor)], [(1, .builtin .tensor)]⟩]⟩

/-- A function with zero bridging operations whose body holds an
`arith.extf` feeding an `arith.truncf` back to the original type: the
greedy cleanup rewrites it even though no materialization is present. -/
def extfTruncfFunc : MFunc :=
  ⟨["torch.assume_strict_symbolic_shapes"],
   [⟨.extf, [(0, .builtin .f32)], [(1, .builtin .f64)]⟩,
    ⟨.truncf, [(1, .builtin .f64)], [(2, .builtin .f32)]⟩]⟩

/-- A function with zero bridging operations, one fully legal generic
operation and both a torch-namespaced and a non-torch dialect attribute. -/
def legalGenericFunc : MFunc :=
  ⟨["torch.assume_strict_symbolic_shapes", "llvm.emit_c_interface"],
   [⟨.generic "arith.addi", [(0, .builtin .i64), (1, .builtin .i64)],
     [(2, .builtin .i64)]⟩]⟩

/-! ## Theorems about the rewrite rules -/

/-- C5: for every raw value representable in the target dtype, requantizing a
dequantization with the same scale and zero-point is the identity. -/
theorem quantize_dequantize_roundtrip (dty : DType) (raw zeroPoint lo hi : Int)
    (scale : Rat) (hs : scale ≠ 0) (hr : dty.qrange = some (lo, hi))
    (hlo : lo ≤ raw) (hhi : raw ≤ hi) :
    quantize (dequantize raw scale zeroPoint) scale zeroPoint lo hi = raw := by
  unfold quantize dequantize
  rw [mul_div_assoc, div_self hs, mul_one]
  have h1 : (raw : Rat) - (zeroPoint : Rat) = ((raw - zeroPoint : Int) : Rat) := by
    push_cast
    ring
  rw [h1, round_intCast]
  unfold clampTo
  omega

/-- C5 witness: a concrete signed-8-bit round trip. -/
theorem quantize_dequantize_roundtrip_witness :
    quantize (dequantize 5 (1 / 2) 3) (1 / 2) 3 (-128) 127 = 5 :=
  quantize_dequantize_roundtrip .si8 5 3 (-128) 127 (1 / 2)
    (by norm_num) (by decide) (by decide) (by decide)

/-- A validated `GroupQueryAttention` record is rewritten: the outcome
replaces the operation with the reshaped attention and the two present-cache
outputs (past cache when the declared result sizes equal the cache sizes, a
dim-2 concatenation otherwise), and the query-reshape operation is among the
created operations. -/
theorem gqa_success_spec
    (rec : OpRecord) (doRotary kvNumHeads localWindowSize numHeads rotaryInterleaved
      smoothSoftmax : Int) (scale softcap : Rat)
    (batchSize sequenceLength hiddenSize : Int) (qdt : DType)
    (pastKeySizes pastValueSizes res1Sizes res2Sizes : List Int)
    (h3 : rec.resultTys.length = 3)
    (ha1 : rec.intAttr "do_rotary" 0 = some doRotary)
    (ha2 : rec.intAttr "kv_num_heads" 0 = some kvNumHeads)
    (ha3 : rec.intAttr "local_window_size" (-1) = some localWindowSize)
    (ha4 : rec.intAttr "num_heads" 0 = some numHeads)
    (ha5 : rec.intAttr "rotary_interleaved" 0 = some rotaryInterleaved)
    (ha6 : rec.floatAttr "scale" 0 = some scale)
    (ha7 : rec.intAttr "smooth_softmax" 0 = some smoothSoftmax)
    (ha8 : rec.floatAttr "softcap" 0 = some softcap)
    (h9 : rec.operandTys.length = 9 ∨ (doRotary = 0 ∧ rec.operandTys.length = 7))
    (hkv : kvNumHeads ≠ 0) (hlw : localWindowSize = -1) (hnh : numHeads ≠ 0)
    (hss : smoothSoftmax = 0) (hsc : softcap = 0)
    (hq : rec.operandTys.getD 0 dfltTy =
      ⟨some [batchSize, sequenceLength, hiddenSize], qdt⟩)
    (hbk : batchSize ≠ -1) (hsk : sequenceLength ≠ -1) (hhk : hiddenSize ≠ -1)
    (hpk : (rec.operandTys.get? 3).bind TensorTy.sizes = some pastKeySizes)
    (hpv : (rec.operandTys.get? 4).bind TensorTy.sizes = some pastValueSizes)
    (hr1 : (rec.resultTys.get? 1).bind TensorTy.sizes = some res1Sizes)
    (hr2 : (rec.resultTys.get? 2).bind TensorTy.sizes = some res2Sizes) :
    (groupQueryAttention rec).outcome = .replaced
      [.reshape (.sdpa (gqaRotaryApplied doRotary rotaryInterleaved batchSize sequenceLength
          (gqaQInput batchSize numHeads sequenceLength (hiddenSize.tdiv numHeads)))
        (gqaRotaryApplied doRotary rotaryInterleaved batchSize sequenceLength
          (gqaKInput batchSize kvNumHeads sequenceLength (hiddenSize.tdiv numHeads)))
        (gqaVInput batchSize kvNumHeads sequenceLength (hiddenSize.tdiv numHeads))
        (if scale ≠ 0 then some scale else none))
        (.listC [.constInt batchSize, .constInt sequenceLength, .constInt hiddenSize]),
       if pastKeySizes = res1Sizes then TExpr.input 3
       else .cat (.listC [.input 3, gqaRotaryApplied doRotary rotaryInterleaved batchSize
         sequenceLength (gqaKInput batchSize kvNumHeads sequenceLength
           (hiddenSize.tdiv numHeads))]) 2,
       if pastValueSizes = res2Sizes then TExpr.input 4
       else .cat (.listC [.input 4, gqaVInput batchSize kvNumHeads sequenceLength
         (hiddenSize.tdiv numHeads)]) 2] ∧
    gqaQInput batchSize numHeads sequenceLength (hiddenSize.tdiv numHeads) ∈
      (groupQueryAttention rec).emitted := by
  have hknown : (⟨some [batchSize, sequenceLength, hiddenSize], qdt⟩ :
      TensorTy).allSizesKnown = true := by
    simp [TensorTy.allSizesKnown, hbk, hsk, hhk]
  unfold groupQueryAttention
  rw [ha1, ha2, ha3, ha4, ha5, ha6, ha7, ha8]
  simp only [h3, hq, hknown]
  rw [if_neg (by simp), if_neg (not_not_intro h9), if_neg hkv,
    if_neg (not_not_intro hlw), if_neg hnh, if_neg (not_not_intro hss),
    if_neg (not_not_intro hsc), if_neg (by simp)]
  simp only [gqaBuild, hpk, hpv, hr1, hr2]
  constructor
  · split_ifs <;> rfl
  · split_ifs <;> simp

/-- C8: in the `GroupQueryAttention` rewrite, whenever the declared sizes of a
present-key (resp. present-value) result equal the sizes of the past-key
(resp. past-value) input cache, that output is the past cache value unchanged
and no concatenation is emitted for it; whenever they differ, the output is
the concatenation of the past cache and the new (rotated) key resp. new value
along dimension 2. -/
theorem gqa_present_cache_unchanged_iff_shapes_equal
    (rec : OpRecord) (doRotary kvNumHeads localWindowSize numHeads rotaryInterleaved
      smoothSoftmax : Int) (scale softcap : Rat)
    (batchSize sequenceLength hiddenSize : Int) (qdt : DType)
    (pastKeySizes pastValueSizes res1Sizes res2Sizes : List Int)
    (h3 : rec.resultTys.length = 3)
    (ha1 : rec.intAttr "do_rotary" 0 = some doRotary)
    (ha2 : rec.intAttr "kv_num_heads" 0 = some kvNumHeads)
    (ha3 : rec.intAttr "local_window_size" (-1) = some localWindowSize)
    (ha4 : rec.intAttr "num_heads" 0 = some numHeads)
    (ha5 : rec.intAttr "rotary_interleaved" 0 = some rotaryInterleaved)
    (ha6 : rec.floatAttr "scale" 0 = some scale)
    (ha7 : rec.intAttr "smooth_softmax" 0 = some smoothSoftmax)
    (ha8 : rec.floatAttr "softcap" 0 = some softcap)
    (h9 : rec.operandTys.length = 9 ∨ (doRotary = 0 ∧ rec.operandTys.length = 7))
    (hkv : kvNumHeads ≠ 0) (hlw : localWindowSize = -1) (hnh : numHeads ≠ 0)
    (hss : smoothSoftmax = 0) (hsc : softcap = 0)
    (hq : rec.operandTys.getD 0 dfltTy =
      ⟨some [batchSize, sequenceLength, hiddenSize], qdt⟩)
    (hbk : batchSize ≠ -1) (hsk : sequenceLength ≠ -1) (hhk : hiddenSize ≠ -1)
    (hpk : (rec.operandTys.get? 3).bind TensorTy.sizes = some pastKeySizes)
    (hpv : (rec.operandTys.get? 4).bind TensorTy.sizes = some pastValueSizes)
    (hr1 : (rec.resultTys.get? 1).bind TensorTy.sizes = some res1Sizes)
    (hr2 : (rec.resultTys.get? 2).bind TensorTy.sizes = some res2Sizes) :
    (groupQueryAttention rec).outcome = .replaced
      [.reshape (.sdpa (gqaRotaryApplied doRotary rotaryInterleaved batchSize sequenceLength
          (gqaQInput batchSize numHeads sequenceLength (hiddenSize.tdiv numHeads)))
        (gqaRotaryApplied doRotary rotaryInterleaved batchSize sequenceLength
          (gqaKInput batchSize kvNumHeads sequenceLength (hiddenSize.tdiv numHeads)))
        (gqaVInput batchSize kvNumHeads sequenceLength (hiddenSize.tdiv numHeads))
        (if scale ≠ 0 then some scale else none))
        (.listC [.constInt batchSize, .constInt sequenceLength, .constInt hiddenSize]),
       if pastKeySizes = res1Sizes then TExpr.input 3
       else .cat (.listC [.input 3, gqaRotaryApplied doRotary rotaryInterleaved batchSize
         sequenceLength (gqaKInput batchSize kvNumHeads sequenceLength
           (hiddenSize.tdiv numHeads))]) 2,
       if pastValueSizes = res2Sizes then TExpr.input 4
       else .cat (.listC [.input 4, gqaVInput batchSize kvNumHeads sequenceLength
         (hiddenSize.tdiv numHeads)]) 2] :=
  (gqa_success_spec rec doRotary kvNumHeads localWindowSize numHeads rotaryInterleaved
    smoothSoftmax scale softcap batchSize sequenceLength hiddenSize qdt
    pastKeySizes pastValueSizes res1Sizes res2Sizes h3 ha1 ha2 ha3 ha4 ha5 ha6 ha7 ha8
    h9 hkv hlw hnh hss hsc hq hbk hsk hhk hpk hpv hr1 hr2).1

/-- C8 witness: a record whose declared cache-result sizes equal the past
cache sizes is rewritten with both cache outputs returned unchanged. -/
theorem gqa_present_cache_unchanged_iff_shapes_equal_witness :
    (groupQueryAttention gqaRecNoGrowth).outcome = .replaced
      [.reshape (.sdpa (gqaQInput 1 2 2 4) (gqaKInput 1 1 2 4) (gqaVInput 1 1 2 4) none)
        (.listC [.constInt 1, .constInt 2, .constInt 8]),
       .input 3, .input 4] := by
  have h := gqa_present_cache_unchanged_iff_shapes_equal gqaRecNoGrowth 0 1 (-1) 2 0 0 0 0 1 2 8 .f32
    [1, 1, 2, 8] [1, 1, 2, 8] [1, 1, 2, 8] [1, 1, 2, 8] rfl rfl rfl rfl rfl rfl rfl rfl rfl
    (Or.inr ⟨rfl, rfl⟩) (by decide) rfl (by decide) rfl rfl rfl
    (by decide) (by decide) (by decide) rfl rfl rfl rfl
  simpa [gqaRotaryApplied] using h

/-- C10: a validated `GroupQueryAttention` record whose `num_heads` does not
divide the query's hidden dimension still succeeds; `head_size` is the
truncating quotient `hidden_size / num_heads`, the emitted query reshape uses
`(batch, num_heads, sequence_length, head_size)`, and
`num_heads * head_size ≠ hidden_size`.  No divisibility check exists. -/
theorem gqa_headSize_floor_no_divisibility_check
    (rec : OpRecord) (doRotary kvNumHeads localWindowSize numHeads rotaryInterleaved
      smoothSoftmax : Int) (scale softcap : Rat)
    (batchSize sequenceLength hiddenSize : Int) (qdt : DType)
    (pastKeySizes pastValueSizes res1Sizes res2Sizes : List Int)
    (h3 : rec.resultTys.length = 3)
    (ha1 : rec.intAttr "do_rotary" 0 = some doRotary)
    (ha2 : rec.intAttr "kv_num_heads" 0 = some kvNumHeads)
    (ha3 : rec.intAttr "local_window_size" (-1) = some localWindowSize)
    (ha4 : rec.intAttr "num_heads" 0 = some numHeads)
    (ha5 : rec.intAttr "rotary_interleaved" 0 = some rotaryInterleaved)
    (ha6 : rec.floatAttr "scale" 0 = some scale)
    (ha7 : rec.intAttr "smooth_softmax" 0 = some smoothSoftmax)
    (ha8 : rec.floatAttr "softcap" 0 = some softcap)
    (h9 : rec.operandTys.length = 9 ∨ (doRotary = 0 ∧ rec.operandTys.length = 7))
    (hkv : kvNumHeads ≠ 0) (hlw : localWindowSize = -1) (hnh : numHeads ≠ 0)
    (hss : smoothSoftmax = 0) (hsc : softcap = 0)
    (hq : rec.operandTys.getD 0 dfltTy =
      ⟨some [batchSize, sequenceLength, hiddenSize], qdt⟩)
    (hbk : batchSize ≠ -1) (hsk : sequenceLength ≠ -1) (hhk : hiddenSize ≠ -1)
    (hpk : (rec.operandTys.get? 3).bind TensorTy.sizes = some pastKeySizes)
    (hpv : (rec.operandTys.get? 4).bind TensorTy.sizes = some pastValueSizes)
    (hr1 : (rec.resultTys.get? 1).bind TensorTy.sizes = some res1Sizes)
    (hr2 : (rec.resultTys.get? 2).bind TensorTy.sizes = some res2Sizes)
    (hnd : ¬ (numHeads ∣ hiddenSize)) :
    (groupQueryAttention rec).outcome.isReplaced = true ∧
    gqaQInput batchSize numHeads sequenceLength (hiddenSize.tdiv numHeads) ∈
      (groupQueryAttention rec).emitted ∧
    numHeads * hiddenSize.tdiv numHeads ≠ hiddenSize := by
  obtain ⟨ho, hm⟩ := gqa_success_spec rec doRotary kvNumHeads localWindowSize numHeads
    rotaryInterleaved smoothSoftmax scale softcap batchSize sequenceLength hiddenSize qdt
    pastKeySizes pastValueSizes res1Sizes res2Sizes h3 ha1 ha2 ha3 ha4 ha5 ha6 ha7 ha8
    h9 hkv hlw hnh hss hsc hq hbk hsk hhk hpk hpv hr1 hr2
  exact ⟨by rw [ho]; rfl, hm, fun hcon => hnd ⟨_, hcon.symm⟩⟩

/-- C10 witness: `hidden_size = 10`, `num_heads = 3`: the rule succeeds with
`head_size = 3` and `3 * 3 ≠ 10`. -/
theorem gqa_headSize_floor_no_divisibility_check_witness :
    (groupQueryAttention gqaRecIndivisible).outcome.isReplaced = true ∧
    gqaQInput 1 3 2 (Int.tdiv 10 3) ∈ (groupQueryAttention gqaRecIndivisible).emitted ∧
    (3 : Int) * Int.tdiv 10 3 ≠ 10 :=
  gqa_headSize_floor_no_divisibility_check gqaRecIndivisible 0 1 (-1) 3 0 0 0 0 1 2 10 .f32
    [1, 1, 2, 10] [1, 1, 2, 10] [1, 1, 2, 10] [1, 1, 2, 10] rfl rfl rfl rfl rfl rfl rfl rfl rfl
    (Or.inr ⟨rfl, rfl⟩) (by decide) rfl (by decide) rfl rfl rfl
    (by decide) (by decide) (by decide) rfl rfl rfl rfl (by decide)

theorem rotaryEmbedding_decline_char (rec : OpRecord) :
    (rotaryEmbedding rec).emitted = [] ∨ (rotaryEmbedding rec).outcome.isReplaced = true := by
  unfold rotaryEmbedding
  repeat' first
  | exact Or.inl rfl
  | exact Or.inr rfl
  | split

theorem gqaBuild_decline_char (rec : OpRecord) (a b c : Int) (s : Rat) (d e f g : Int) :
    (gqaBuild rec a b c d s e f g).emitted = [] ∨
    (gqaBuild rec a b c d s e f g).outcome.isReplaced = true := by
  unfold gqaBuild
  split
  · exact Or.inr rfl
  · exact Or.inl rfl

theorem groupQueryAttention_decline_char (rec : OpRecord) :
    (groupQueryAttention rec).emitted = [] ∨
    (groupQueryAttention rec).outcome.isReplaced = true := by
  unfold groupQueryAttention
  repeat' first
  | exact Or.inl rfl
  | exact Or.inr rfl
  | exact gqaBuild_decline_char ..
  | split

theorem qLinearAdd_arity (rec : OpRecord) (h : rec.operandTys.length ≠ 8) :
    (qLinearAdd rec).emitted = [] ∧ ∃ r, (qLinearAdd rec).outcome = .failed r := by
  unfold qLinearAdd
  repeat' first
  | exact ⟨rfl, none, rfl⟩
  | exact ⟨rfl, _, rfl⟩
  | exact absurd h (by assumption)
  | split


theorem qLinearMul_arity (rec : OpRecord) (h : rec.operandTys.length ≠ 8) :
    (qLinearMul rec).emitted = [] ∧ ∃ r, (qLinearMul rec).outcome = .failed r := by
  unfold qLinearMul
  repeat' first
  | exact ⟨rfl, none, rfl⟩
  | exact ⟨rfl, _, rfl⟩
  | exact absurd h (by assumption)
  | split


theorem qLinearLeakyRelu_arity (rec : OpRecord) (h : rec.operandTys.length ≠ 5) :
    (qLinearLeakyRelu rec).emitted = [] ∧ ∃ r, (qLinearLeakyRelu rec).outcome = .failed r := by
  unfold qLinearLeakyRelu
  repeat' first
  | exact ⟨rfl, none, rfl⟩
  | exact ⟨rfl, _, rfl⟩
  | exact absurd h (by assumption)
  | split


theorem qLinearSigmoid_arity (rec : OpRecord) (h : rec.operandTys.length ≠ 5) :
    (qLinearSigmoid rec).emitted = [] ∧ ∃ r, (qLinearSigmoid rec).outcome = .failed r := by
  unfold qLinearSigmoid
  repeat' first
  | exact ⟨rfl, none, rfl⟩
  | exact ⟨rfl, _, rfl⟩
  | exact absurd h (by assumption)
  | split


theorem qLinearAveragePool_arity (rec : OpRecord) (h : rec.operandTys.length ≠ 5) :
    (qLinearAveragePool rec).emitted = [] ∧ ∃ r, (qLinearAveragePool rec).outcome = .failed r := by
  unfold qLinearAveragePool
  repeat' first
  | exact ⟨rfl, none, rfl⟩
  | exact ⟨rfl, _, rfl⟩
  | exact absurd h (by assumption)
  | split


theorem fusedMatMul_arity (rec : OpRecord) (h : rec.operandTys.length ≠ 2) :
    (fusedMatMul rec).emitted = [] ∧ ∃ r, (fusedMatMul rec).outcome = .failed r := by
  unfold fusedMatMul
  rw [if_pos (Or.inl h)]
  exact ⟨rfl, none, rfl⟩

theorem decline_of_char {res : RuleResult}
    (hc : res.emitted = [] ∨ res.outcome.isReplaced = true) {r : Option String}
    (hf : res.outcome = .failed r) : res.emitted = [] := by
  rcases hc with h | h
  · exact h
  · rw [hf] at h
    simp [Outcome.isReplaced] at h

/-- C1 (amended): a decline never commits a replacement, and declines during
upfront validation create no operations — every decline of `RotaryEmbedding`
and `GroupQueryAttention` creates nothing, and operand-arity declines of the
`QLinear` elementwise/pooling rules and of `FusedMatMul` create nothing — but
`QLinearGlobalAveragePool` declines an unsupported-rank record with a bare
`failure()` (no reason string) after creating pooling-parameter operations,
and `FusedMatMul` declines a `transBatch` record after creating the requested
transpose. -/
theorem comMicrosoft_decline_no_emission_amended :
    (∀ e ∈ populateComMicrosoftDomain,
      e.1 = "RotaryEmbedding" ∨ e.1 = "GroupQueryAttention" →
      ∀ rec r, (e.2.2 rec).outcome = .failed r → (e.2.2 rec).emitted = []) ∧
    (∀ rec : OpRecord, rec.operandTys.length ≠ 8 →
      ((qLinearAdd rec).emitted = [] ∧ ∃ r, (qLinearAdd rec).outcome = .failed r) ∧
      ((qLinearMul rec).emitted = [] ∧ ∃ r, (qLinearMul rec).outcome = .failed r)) ∧
    (∀ rec : OpRecord, rec.operandTys.length ≠ 5 →
      ((qLinearLeakyRelu rec).emitted = [] ∧
        ∃ r, (qLinearLeakyRelu rec).outcome = .failed r) ∧
      ((qLinearSigmoid rec).emitted = [] ∧
        ∃ r, (qLinearSigmoid rec).outcome = .failed r) ∧
      ((qLinearAveragePool rec).emitted = [] ∧
        ∃ r, (qLinearAveragePool rec).outcome = .failed r)) ∧
    (∀ rec : OpRecord, rec.operandTys.length ≠ 2 →
      (fusedMatMul rec).emitted = [] ∧ ∃ r, (fusedMatMul rec).outcome = .failed r) ∧
    ((qLinearGlobalAveragePool qgapRankSixRec).outcome = .failed none ∧
      (qLinearGlobalAveragePool qgapRankSixRec).emitted ≠ []) ∧
    ((fusedMatMul fmmTransBatchRec).outcome = .failed
        (some "Unimplemented: support not present for transBatchA and transBatchB attribute") ∧
      (fusedMatMul fmmTransBatchRec).emitted ≠ []) := by
  refine ⟨?_, fun rec h => ⟨qLinearAdd_arity rec h, qLinearMul_arity rec h⟩,
    fun rec h => ⟨qLinearLeakyRelu_arity rec h, qLinearSigmoid_arity rec h,
      qLinearAveragePool_arity rec h⟩,
    fun rec h => fusedMatMul_arity rec h,
    ⟨rfl, fun hcon => List.noConfusion hcon⟩,
    ⟨rfl, fun hcon => List.noConfusion hcon⟩⟩
  intro e he hname rec r hfail
  simp only [populateComMicrosoftDomain, List.mem_cons, List.not_mem_nil, or_false] at he
  rcases he with h|h|h|h|h|h|h|h|h|h <;> subst h <;>
    first
    | exact decline_of_char (rotaryEmbedding_decline_char rec) hfail
    | exact decline_of_char (groupQueryAttention_decline_char rec) hfail
    | simp at hname

/-- C1 witness: the `RotaryEmbedding` rule registered in
`populateComMicrosoftDomain`, declining an operandless record, creates no
operations. -/
theorem comMicrosoft_decline_no_emission_amended_witness :
    (rotaryEmbedding ⟨[], [], []⟩).emitted = [] :=
  comMicrosoft_decline_no_emission_amended.1 ("RotaryEmbedding", 1, rotaryEmbedding)
    (by simp [populateComMicrosoftDomain]) (Or.inl rfl) ⟨[], [], []⟩
    (some "Failed to get required inputs") rfl

/-- C1 counterexample: the `QLinearGlobalAveragePool` rule declines a rank-6
record having already created operations, and the failure carries no reason
string — contradicting the claim that a failing rule has emitted zero
operations and attaches a human-readable reason. -/
theorem qgap_decline_after_emission_counterexample :
    (qLinearGlobalAveragePool qgapRankSixRec).outcome = .failed none ∧
    (qLinearGlobalAveragePool qgapRankSixRec).emitted ≠ [] :=
  ⟨rfl, fun hcon => List.noConfusion hcon⟩

theorem fmTransposeStep_zero (idx : Nat) (ty : TensorTy) (side : String) :
    fmTransposeStep 0 idx ty side = .ok (.input idx, []) := by
  unfold fmTransposeStep
  rw [if_pos rfl]

/-- C9 (amended): with `transA = 1`, `transB = 0` (and `transBatch` unset) the
rule multiplies the lhs transposed in its last two axes by the untouched rhs;
every record binding `transBatchA ≠ 0` or `transBatchB ≠ 0` ends in `Failed`
(never in a multiplication), and when binding and the requested transpositions
succeed the failure carries the explicit unimplemented-`transBatch`
diagnostic. -/
theorem fusedMatMul_trans_behavior :
    (∀ (rec : OpRecord) (ds : List Int),
      rec.operandTys.length = 2 → rec.resultTys.length = 1 →
      rec.intAttr "transA" 0 = some 1 → rec.intAttr "transB" 0 = some 0 →
      rec.intAttr "transBatchA" 0 = some 0 → rec.intAttr "transBatchB" 0 = some 0 →
      (rec.operandTys.getD 0 dfltTy).sizes = some ds → 2 ≤ ds.length →
      (fusedMatMul rec).outcome = .replaced
        [.matmul (.transposeInt (.input 0) (ds.length - 2) (ds.length - 1)) (.input 1)]) ∧
    (∀ (rec : OpRecord) (tba tbb : Int),
      rec.intAttr "transBatchA" 0 = some tba → rec.intAttr "transBatchB" 0 = some tbb →
      (tba ≠ 0 ∨ tbb ≠ 0) →
      ∃ r, (fusedMatMul rec).outcome = .failed r) ∧
    (∀ (rec : OpRecord) (tba tbb : Int),
      rec.operandTys.length = 2 → rec.resultTys.length = 1 →
      rec.intAttr "transA" 0 = some 0 → rec.intAttr "transB" 0 = some 0 →
      rec.intAttr "transBatchA" 0 = some tba → rec.intAttr "transBatchB" 0 = some tbb →
      (tba ≠ 0 ∨ tbb ≠ 0) →
      (fusedMatMul rec).outcome = .failed
        (some "Unimplemented: support not present for transBatchA and transBatchB attribute")) := by
  refine ⟨?_, ?_, ?_⟩
  · intro rec ds h2 h1 hta htb hba hbb hds hlen
    have hnl : ¬ ds.length < 2 := by omega
    have hstep : fmTransposeStep 1 0 (rec.operandTys.getD 0 dfltTy) "lhs" =
        .ok (.transposeInt (.input 0) (ds.length - 2) (ds.length - 1),
          [.transposeInt (.input 0) (ds.length - 2) (ds.length - 1)]) := by
      unfold fmTransposeStep
      rw [if_neg (by decide), hds]
      simp [hnl]
    unfold fusedMatMul
    rw [if_neg (by simp [h2, h1]), hta, htb, hba, hbb]
    simp only [hstep, fmTransposeStep_zero]
    rw [if_neg (by simp)]
  · intro rec tba tbb hba hbb hne
    unfold fusedMatMul
    split
    · exact ⟨none, rfl⟩
    · rcases hA : rec.intAttr "transA" 0 with _ | transA <;>
        rcases hB : rec.intAttr "transB" 0 with _ | transB <;>
        rw [hba, hbb] <;>
        first
        | exact ⟨none, rfl⟩
        | repeat' first
          | exact ⟨_, rfl⟩
          | split
          | simp_all
  · intro rec tba tbb h2 h1 hta htb hba hbb hne
    unfold fusedMatMul
    rw [if_neg (by simp [h2, h1]), hta, htb, hba, hbb]
    simp only [fmTransposeStep_zero]
    rw [if_pos hne]
    rfl

/-- C9 counterexample: a single-operand record with `transBatchA = 1` fails
operand binding and returns `Failed` with no diagnostic at all, contradicting
"always returns Failed with an explicit unimplemented diagnostic". -/
theorem fusedMatMul_no_diagnostic_counterexample :
    (fusedMatMul fmmBindFailRec).outcome = .failed none := rfl

/-- C9 witness: a rank-3 lhs with `transA = 1` is lowered to a matmul of the
`(1, 2)`-transposed lhs with the untouched rhs. -/
theorem fusedMatMul_trans_behavior_witness :
    (fusedMatMul fmmTransARec).outcome = .replaced
      [.matmul (.transposeInt (.input 0) 1 2) (.input 1)] :=
  fusedMatMul_trans_behavior.1 fmmTransARec [4, 5, 6] rfl rfl rfl rfl rfl rfl rfl
    (by decide)

/-! Equation lemmas for `evalE`, one per constructor the position-ids
subgraph uses (definitional). -/

theorem evalE_input (env : Nat → Option TVal) (i : Nat) :
    evalE env (.input i) = env i := rfl

theorem evalE_constInt (env : Nat → Option TVal) (n : Int) :
    evalE env (.constInt n) = some (.i n) := rfl

theorem evalE_item (env : Nat → Option TVal) (x : TExpr) :
    evalE env (.item x) = (evalE env x).bind (fun v =>
      match v with
      | .i n => some (.i n)
      | .v1 [n] => some (.i n)
      | _ => none) := rfl

theorem evalE_gtInt (env : Nat → Option TVal) (a c : TExpr) :
    evalE env (.gtInt a c) = (evalE env a).bind (fun x => (evalE env c).bind (fun y =>
      match x, y with
      | .i p, .i q => some (.b (decide (p > q)))
      | _, _ => none)) := rfl

theorem evalE_neInt (env : Nat → Option TVal) (a c : TExpr) :
    evalE env (.neInt a c) = (evalE env a).bind (fun x => (evalE env c).bind (fun y =>
      match x, y with
      | .i p, .i q => some (.b (decide (p ≠ q)))
      | _, _ => none)) := rfl

theorem evalE_andB (env : Nat → Option TVal) (a c : TExpr) :
    evalE env (.andB a c) = (evalE env a).bind (fun x => (evalE env c).bind (fun y =>
      match x, y with
      | .b p, .b q => some (.b (p && q))
      | _, _ => none)) := rfl

theorem evalE_intBool (env : Nat → Option TVal) (x : TExpr) :
    evalE env (.intBool x) = (evalE env x).bind (fun v =>
      match v with
      | .b bv => some (.i (if bv then 1 else 0))
      | _ => none) := rfl

theorem evalE_zeros (env : Nat → Option TVal) (sizes dtype : TExpr) :
    evalE env (.zeros sizes dtype) =
      match evalConstIntList sizes with
      | some [bs, s] => some (.v2 (List.replicate bs.toNat (List.replicate s.toNat 0)))
      | _ => none := rfl

theorem evalE_toDtype (env : Nat → Option TVal) (x dtype : TExpr) :
    evalE env (.toDtype x dtype) = evalE env x := rfl

theorem evalE_addScalar (env : Nat → Option TVal) (x other alpha : TExpr) :
    evalE env (.addScalar x other alpha) = (evalE env x).bind (fun v =>
      (evalE env other).bind (fun o => (evalE env alpha).bind (fun al =>
      match v, o, al with
      | .v1 xs, .i p, .i q => some (.v1 (xs.map (· + p * q)))
      | _, _, _ => none))) := rfl

theorem evalE_subScalar (env : Nat → Option TVal) (x other alpha : TExpr) :
    evalE env (.subScalar x other alpha) = (evalE env x).bind (fun v =>
      (evalE env other).bind (fun o => (evalE env alpha).bind (fun al =>
      match v, o, al with
      | .v1 xs, .i p, .i q => some (.v1 (xs.map (· - p * q)))
      | _, _, _ => none))) := rfl

theorem evalE_arange (env : Nat → Option TVal) (endv dtype : TExpr) :
    evalE env (.arange endv dtype) = (evalE env endv).bind (fun v =>
      match v with
      | .i n => some (.v1 ((List.range n.toNat).map Int.ofNat))
      | _ => none) := rfl

theorem evalE_repeatT (env : Nat → Option TVal) (x reps : TExpr) :
    evalE env (.repeatT x reps) = (evalE env x).bind (fun v =>
      match v, evalConstIntList reps with
      | .v1 xs, some [bs, r] =>
        some (.v2 (List.replicate bs.toNat (List.flatten (List.replicate r.toNat xs))))
      | _, _ => none) := rfl

theorem evalE_view (env : Nat → Option TVal) (x sizes : TExpr) :
    evalE env (.view x sizes) = (evalE env x).bind (fun v =>
      match v, evalConstIntList sizes with
      | .v1 xs, some [a, c] =>
        if a ≤ 0 ∨ c ≤ 0 then none else (splitRows a.toNat c.toNat xs).map .v2
      | _, _ => none) := rfl

theorem evalE_addTensor (env : Nat → Option TVal) (a c alpha : TExpr) :
    evalE env (.addTensor a c alpha) = (evalE env a).bind (fun x =>
      (evalE env c).bind (fun y => (evalE env alpha).bind (fun al =>
      match x, y, al with
      | .v2 xss, .v2 [[p]], .i q => some (.v2 (xss.map (·.map (· + p * q))))
      | _, _, _ => none))) := rfl

theorem evalE_ltTensor (env : Nat → Option TVal) (a c : TExpr) :
    evalE env (.ltTensor a c) = (evalE env a).bind (fun x => (evalE env c).bind (fun y =>
      match x, y with
      | .v2 xss, .v2 [[t]] => some (.v2b (xss.map (·.map (fun v => decide (v < t)))))
      | _, _ => none)) := rfl

theorem evalE_tensorLit (env : Nat → Option TVal) (data dtype : TExpr) :
    evalE env (.tensorLit data dtype) =
      match evalConstIntList data with
      | some [n] => some (.i n)
      | _ => none := rfl

theorem evalE_whereSelf (env : Nat → Option TVal) (cond a c : TExpr) :
    evalE env (.whereSelf cond a c) = (evalE env cond).bind (fun cv =>
      (evalE env a).bind (fun x => (evalE env c).bind (fun y =>
      match cv, x, y with
      | .v2b cs, .v2 xs, .v2 ys => (whereMat cs xs ys).map .v2
      | .v2b cs, .v2 xs, .i n => (whereMatS cs xs n).map .v2
      | _, _, _ => none))) := rfl

theorem evalE_full (env : Nat → Option TVal) (sizes fill dtype : TExpr) :
    evalE env (.full sizes fill dtype) = (evalE env fill).bind (fun fv =>
      match evalConstIntList sizes, fv with
      | some [bs, s], .i n =>
        some (.v2b (List.replicate bs.toNat (List.replicate s.toNat (decide (n ≠ 0)))))
      | _, _ => none) := rfl

theorem evalConstIntList_pair (a c : Int) :
    evalConstIntList (.listC [.constInt a, .constInt c]) = some [a, c] := rfl

theorem evalConstIntList_single (a : Int) :
    evalConstIntList (.listC [.constInt a]) = some [a] := rfl

theorem whereRowS_map_cond (f : Int → Bool) (xs : List Int) (n : Int) :
    whereRowS (xs.map f) xs n = some (xs.map fun x => if f x then x else n) := by
  induction xs with
  | nil => rfl
  | cons a t ih => simp [whereRowS, ih]

theorem whereRow_replicate_false (xs ys : List Int) (h : xs.length = ys.length) :
    whereRow (List.replicate ys.length false) xs ys = some ys := by
  induction ys generalizing xs with
  | nil =>
    cases xs with
    | nil => rfl
    | cons a t => simp at h
  | cons b t ih =>
    cases xs with
    | nil => simp at h
    | cons a s =>
      simp only [List.length_cons, List.replicate_succ, whereRow]
      rw [ih s (by simpa using h)]
      simp

/-- C3 (amended): with `do_rotary` set and `sequence_length` equal to the
total cached length, the continuation predicate is false, and (on batch size
1, the only case in which the emitted position-index subgraph is well-formed —
see the view-size slip) the position-index tensor evaluates to the all-zeros
`(batch, sequence_length)` tensor, not to the indices `0..sequence_length-1`. -/
theorem gqa_positionIds_fresh_prompt_amended (sl k : Int) (env : Nat → Option TVal)
    (h5 : env 5 = some (.v1 [k])) (h6 : env 6 = some (.i sl)) :
    evalE env (gqaSubsequentPromptExpr sl) = some (.b false) ∧
    evalE env (gqaPositionIds 1 sl) = some (.v2 [List.replicate sl.toNat 0]) := by
  have hsub : evalE env (gqaSubsequentPromptExpr sl) = some (.b false) := by
    simp only [gqaSubsequentPromptExpr, evalE_andB, evalE_gtInt, evalE_neInt,
      evalE_item, evalE_constInt, evalE_input, h6, Option.some_bind]
    simp
  refine ⟨hsub, ?_⟩
  have h64 : evalE env gqaSeqlensK64 = some (.v1 [k]) := by
    simp only [gqaSeqlensK64, evalE_toDtype, evalE_input, h5]
  have hTot : evalE env gqaTotalSeqLens = some (.v1 [k + 1]) := by
    simp only [gqaTotalSeqLens, evalE_addScalar, evalE_constInt, h64, Option.some_bind]
    simp
  have hPast : evalE env (gqaPastSeqLens sl) = some (.v1 [k + 1 - sl]) := by
    simp only [gqaPastSeqLens, evalE_subScalar, evalE_constInt, hTot, Option.some_bind]
    simp
  have hViewP : evalE env (.view (gqaPastSeqLens sl) gqaViewSizeList) =
      some (.v2 [[k + 1 - sl]]) := by
    simp only [evalE_view, hPast, Option.some_bind, gqaViewSizeList]
    simp [evalConstIntList_pair, splitRows]
  have hViewT : evalE env (.view gqaTotalSeqLens gqaViewSizeList) =
      some (.v2 [[k + 1]]) := by
    simp only [evalE_view, hTot, Option.some_bind, gqaViewSizeList]
    simp [evalConstIntList_pair, splitRows]
  have hRep : evalE env (.repeatT (.arange (.constInt sl) (.constInt 4))
      (.listC [.constInt 1, .constInt 1])) =
      some (.v2 [(List.range sl.toNat).map Int.ofNat]) := by
    simp only [evalE_repeatT, evalE_arange, evalE_constInt, Option.some_bind,
      evalConstIntList_pair]
    simp
  have hAdd : evalE env (.addTensor (.repeatT (.arange (.constInt sl) (.constInt 4))
      (.listC [.constInt 1, .constInt 1])) (.view (gqaPastSeqLens sl) gqaViewSizeList)
      (.constInt 1)) =
      some (.v2 [((List.range sl.toNat).map Int.ofNat).map (· + (k + 1 - sl))]) := by
    simp only [evalE_addTensor, hRep, hViewP, evalE_constInt, Option.some_bind]
    simp
  have hLt : evalE env (.ltTensor (.addTensor (.repeatT (.arange (.constInt sl)
      (.constInt 4)) (.listC [.constInt 1, .constInt 1]))
      (.view (gqaPastSeqLens sl) gqaViewSizeList) (.constInt 1))
      (.view gqaTotalSeqLens gqaViewSizeList)) =
      some (.v2b [(((List.range sl.toNat).map Int.ofNat).map (· + (k + 1 - sl))).map
        (fun v => decide (v < k + 1))]) := by
    simp only [evalE_ltTensor, hAdd, hViewT, Option.some_bind]
    simp
  have hOneT : evalE env (.tensorLit (.listC [.constInt 1]) (.constInt 4)) =
      some (.i 1) := by
    simp [evalE_tensorLit, evalConstIntList_single]
  have hB : evalE env (gqaPositionIdsB 1 sl) =
      some (.v2 [(((List.range sl.toNat).map Int.ofNat).map (· + (k + 1 - sl))).map
        (fun x => if decide (x < k + 1) then x else 1)]) := by
    simp only [gqaPositionIdsB, evalE_whereSelf, hLt, hAdd, hOneT, Option.some_bind]
    simp only [whereMatS, whereRowS_map_cond, Option.some_bind]
    rfl
  have hA : evalE env (gqaPositionIdsA 1 sl) =
      some (.v2 [List.replicate sl.toNat 0]) := by
    simp only [gqaPositionIdsA, evalE_zeros, evalConstIntList_pair]
    simp
  have hFull : evalE env (.full (.listC [.constInt 1, .constInt sl])
      (.intBool (gqaSubsequentPromptExpr sl)) (.constInt 11)) =
      some (.v2b [List.replicate sl.toNat false]) := by
    simp only [evalE_full, evalE_intBool, hsub, Option.some_bind, evalConstIntList_pair]
    simp
  have hlen : ((((List.range sl.toNat).map Int.ofNat).map (· + (k + 1 - sl))).map
      (fun x => if decide (x < k + 1) then x else (1 : Int))).length =
      (List.replicate sl.toNat (0 : Int)).length := by
    simp
  simp only [gqaPositionIds, evalE_whereSelf, hFull, hB, hA, Option.some_bind]
  simp only [whereMat, Option.some_bind]
  rw [show List.replicate sl.toNat false =
    List.replicate (List.replicate sl.toNat (0 : Int)).length false by simp]
  rw [whereRow_replicate_false _ _ hlen]
  rfl

/-- C3 witness: the amended statement at `sequence_length = 2`, `seqlens_k = [1]`. -/
theorem gqa_positionIds_fresh_prompt_amended_witness :
    evalE gqaEnvFreshPrompt (gqaSubsequentPromptExpr 2) = some (.b false) ∧
    evalE gqaEnvFreshPrompt (gqaPositionIds 1 2) =
      some (.v2 [List.replicate (2 : Int).toNat 0]) :=
  gqa_positionIds_fresh_prompt_amended 2 1 gqaEnvFreshPrompt rfl rfl

/-- C3 counterexample: at `sequence_length = total cached length = 2`, batch 1,
the continuation predicate is false and the position-index tensor handed to
the rotary embedding evaluates to `[[0, 0]]` — the all-zeros tensor — which
differs from the zero-based prompt indices `[[0, 1]]` the claim asserts. -/
theorem gqa_positionIds_zeros_not_arange_counterexample :
    evalE gqaEnvFreshPrompt (gqaSubsequentPromptExpr 2) = some (.b false) ∧
    evalE gqaEnvFreshPrompt (gqaPositionIds 1 2) = some (.v2 [[0, 0]]) ∧
    TVal.v2 [[0, 0]] ≠ TVal.v2 [[0, 1]] := ⟨rfl, rfl, by decide⟩

/-- C4: the emitted view-size list is `[1, 1]` — the constant named
`cstIntMinusOne` in the source is created with `getI64IntegerAttr(1)` while
the adjacent comment documents `past_seqlens.view(-1, 1)` — so for batch size
2 the emitted subgraph reshapes the two-element `past_seqlens` to `[1, 1]`
and is ill-formed (evaluates to nothing): `past_length` is never added per
batch row as the claim describes. -/
theorem gqa_view_size_slip :
    gqaViewSizeList = TExpr.listC [TExpr.constInt 1, TExpr.constInt 1] ∧
    evalE gqaEnvBatchTwo (gqaPositionIds 2 2) = none := ⟨rfl, rfl⟩

/-- C2: a `QLinearConcat` record whose operand count (three) lies outside the
supported set `{2 + 3k}` does not return `Failed` with zero emissions: the
gathering loop reads `operands[3]` and `operands[4]` out of bounds before the
count check can fire. -/
theorem qLinearConcat_arity_oob_crash :
    (qLinearConcat qlcThreeOperandRec).outcome = .crash := rfl

/-! ## Theorems about the finalizing backend-type-conversion pass -/

theorem map_substOperand_nil (l : List (Nat × CTy)) : l.map (substOperand []) = l := by
  induction l with
  | nil => rfl
  | cons a t ih =>
    rw [List.map_cons, ih]
    rfl

theorem convertBody_id (body : List MOp)
    (h : body.all (fun op => !op.isMat && op.isLegal) = true) :
    convertBody [] body = body := by
  induction body with
  | nil => rfl
  | cons op rest ih =>
    simp only [List.all_cons, Bool.and_eq_true, Bool.not_eq_true'] at h
    unfold convertBody
    rw [map_substOperand_nil]
    split
    · rename_i k src res hk hops hres
      exact absurd h.1.1 (by simp [MOp.isMat, hk])
    · rw [ih h.2]

theorem foldBody_id (body : List MOp) : ∀ defs : List MOp,
    hasFoldableTruncf defs body = false → foldBody defs [] body = body := by
  induction body with
  | nil => intro defs _; rfl
  | cons op rest ih =>
    intro defs h
    unfold hasFoldableTruncf at h
    unfold foldBody
    rw [map_substOperand_nil]
    rcases op with ⟨k, ops, opres⟩
    cases k with
    | truncf =>
      rcases ops with _ | ⟨src, ops2⟩
      · exact congrArg _ (ih _ h)
      · rcases ops2 with _ | ⟨src2, ops3⟩
        · rcases opres with _ | ⟨res, opres2⟩
          · exact congrArg _ (ih _ h)
          · rcases opres2 with _ | ⟨res2, opres3⟩
            · dsimp only [] at h ⊢
              rcases hfind : List.find?
                  (fun d => d.kind == MOpKind.extf && d.results.any fun r => r.1 == src.1)
                  defs with _ | e
              · rw [hfind] at h ⊢
                dsimp only [] at h ⊢
                exact congrArg _ (ih _ h)
              · rw [hfind] at h ⊢
                dsimp only [] at h ⊢
                rcases hpo : e.operands with _ | ⟨po, pos2⟩
                · rw [hpo] at h
                  dsimp only [] at h ⊢
                  exact congrArg _ (ih _ h)
                · rcases pos2 with _ | ⟨po2, pos3⟩
                  · rw [hpo] at h
                    dsimp only [] at h ⊢
                    by_cases hty : (res.2 == po.2) = true
                    · rw [if_pos hty] at h
                      cases h
                    · rw [if_neg hty] at h ⊢
                      exact congrArg _ (ih _ h)
                  · rw [hpo] at h
                    dsimp only [] at h ⊢
                    exact congrArg _ (ih _ h)
            · exact congrArg _ (ih _ h)
        · exact congrArg _ (ih _ h)
    | mat k2 => exact congrArg _ (ih _ h)
    | extf => exact congrArg _ (ih _ h)
    | generic name2 => exact congrArg _ (ih _ h)

theorem lookup_none_of_keys (env : List (Nat × (Nat × CTy))) (k : Nat)
    (h : ∀ p ∈ env, p.1 ≠ k) : env.lookup k = none := by
  induction env with
  | nil => rfl
  | cons a es ih =>
    rcases a with ⟨a1, a2⟩
    have ha : a1 ≠ k := h (a1, a2) (by simp)
    simp only [List.lookup]
    have hbeq : (k == a1) = false := by
      simp only [beq_eq_false_iff_ne]
      exact fun hc => ha hc.symm
    rw [hbeq]
    exact ih (fun p hp => h p (by simp [hp]))

theorem substOperand_id_of (env : List (Nat × (Nat × CTy))) (o : Nat × CTy)
    (h : ∀ p ∈ env, p.1 ≠ o.1) : substOperand env o = o := by
  unfold substOperand
  rw [lookup_none_of_keys env o.1 h]

theorem map_substOperand_id (env : List (Nat × (Nat × CTy))) (l : List (Nat × CTy))
    (h : ∀ o ∈ l, ∀ p ∈ env, p.1 ≠ o.1) : l.map (substOperand env) = l := by
  induction l with
  | nil => rfl
  | cons a t ih =>
    rw [List.map_cons, substOperand_id_of env a (h a (by simp)),
      ih (fun o ho p hp => h o (by simp [ho]) p hp)]

theorem MOp.isMat_iff (op : MOp) : op.isMat = true ↔ ∃ k, op.kind = .mat k := by
  unfold MOp.isMat
  cases hk : op.kind <;> simp

theorem convertBody_stranded (body : List MOp) : ∀ env (op : MOp),
    op ∈ body → op.isMat = true →
    (∀ src ∈ op.operands, src.2.isLegal = false ∧
      (∀ d ∈ body, ∀ r ∈ d.results, r.1 ≠ src.1) ∧
      (∀ p ∈ env, p.1 ≠ src.1)) →
    ∃ op' ∈ convertBody env body, op'.isMat = true := by
  induction body with
  | nil => intro env op hmem; cases hmem
  | cons d rest ih =>
    intro env op hmem hmat hop
    unfold convertBody
    rcases List.mem_cons.mp hmem with heq | hmem2
    · subst heq
      have hmap : op.operands.map (substOperand env) = op.operands :=
        map_substOperand_id env op.operands (fun o ho p hp => (hop o ho).2.2 p hp)
      rw [hmap]
      rcases (MOp.isMat_iff op).mp hmat with ⟨k, hk⟩
      split
      · rename_i k2 src res hk2 hops hres
        have hsrc := hop src (by simp [hops])
        rw [if_neg (by simp [hsrc.1])]
        exact ⟨⟨.mat k2, [src], [res]⟩, by simp, rfl⟩
      · exact ⟨⟨op.kind, op.operands, op.results⟩, by simp, hmat⟩
    · split
      · rename_i k2 src res hk2 hops hres
        split
        · rename_i hleg
          apply ih ((res.1, src) :: env) op hmem2 hmat
          intro srcO hsrcO
          obtain ⟨h1, h2, h3⟩ := hop srcO hsrcO
          refine ⟨h1, fun d2 hd2 => h2 d2 (by simp [hd2]), ?_⟩
          intro p hp
          rcases List.mem_cons.mp hp with hpe | hpe
          · subst hpe
            exact h2 d (by simp) res (by simp [hres])
          · exact h3 p hpe
        · rename_i hleg
          obtain ⟨op', hmem3, hmat3⟩ := ih env op hmem2 hmat (fun srcO hsrcO =>
            ⟨(hop srcO hsrcO).1, fun d2 hd2 => (hop srcO hsrcO).2.1 d2 (by simp [hd2]),
             (hop srcO hsrcO).2.2⟩)
          exact ⟨op', by simp [hmem3], hmat3⟩
      · obtain ⟨op', hmem3, hmat3⟩ := ih env op hmem2 hmat (fun srcO hsrcO =>
          ⟨(hop srcO hsrcO).1, fun d2 hd2 => (hop srcO hsrcO).2.1 d2 (by simp [hd2]),
           (hop srcO hsrcO).2.2⟩)
        exact ⟨op', by simp [hmem3], hmat3⟩

/-- C6: the finalizing type-conversion pass (i) accepts a conversion result
only when every surviving operation is a non-materialization with legal
types, so no bridging operation is ever silently dropped, (ii) replaces a
bridging operation whose bridged operand is legal with that operand (the
operand is substituted for the result in the remaining body), and (iii)
fails fatally on any function holding a stranded bridging operation whose
operand is illegal and has no defining operation in the body. -/
theorem finalizing_pass_stranded_materialization_fails :
    (∀ (body b' : List MOp), applyFullConversionFinalize body = some b' →
      ∀ op ∈ b', op.isMat = false ∧ op.isLegal = true) ∧
    (∀ (env : List (Nat × (Nat × CTy))) (rest : List MOp) (k : MatKind)
      (src res : Nat × CTy), (substOperand env src).2.isLegal = true →
      convertBody env ((⟨.mat k, [src], [res]⟩ : MOp) :: rest) =
        convertBody ((res.1, substOperand env src) :: env) rest) ∧
    (∀ f : MFunc, ∀ op ∈ f.body, op.isMat = true →
      (∀ src ∈ op.operands, src.2.isLegal = false ∧
        (∀ d ∈ f.body, ∀ r ∈ d.results, r.1 ≠ src.1)) →
      (finalizingBackendTypeConversionPass f).1 = true) := by
  refine ⟨?_, ?_, ?_⟩
  · intro body b' hsome op hmem
    unfold applyFullConversionFinalize at hsome
    split at hsome
    · rename_i hall
      injection hsome with hb
      subst hb
      have := List.all_eq_true.mp hall op hmem
      simp only [Bool.and_eq_true, Bool.not_eq_true'] at this
      exact this
    · cases hsome
  · intro env rest k src res hleg
    conv_lhs => rw [convertBody.eq_def]
    dsimp only [List.map_cons, List.map_nil]
    rw [if_pos hleg]
  · intro f op hmem hmat hop
    obtain ⟨op', hm, hmat'⟩ := convertBody_stranded f.body [] op hmem hmat
      (fun src hsrc => ⟨(hop src hsrc).1, (hop src hsrc).2, by simp⟩)
    have hnone : applyFullConversionFinalize f.body = none := by
      unfold applyFullConversionFinalize
      rw [if_neg]
      intro hall
      have := List.all_eq_true.mp hall op' hm
      simp [hmat'] at this
    unfold finalizingBackendTypeConversionPass
    rw [hnone]

/-- C7 (amended): on a function with zero remaining bridging operations AND
no `extf`/`truncf` pair foldable by the greedy cleanup, the pass succeeds
and returns the body unchanged with only the `torch.`-namespaced dialect
attributes stripped. -/
theorem finalizing_pass_frame_amended (f : MFunc)
    (hlegal : f.body.all (fun op => !op.isMat && op.isLegal) = true)
    (hnofold : hasFoldableTruncf [] f.body = false) :
    finalizingBackendTypeConversionPass f =
      (false, ⟨stripTorchAttrs f.dialectAttrs, f.body⟩) := by
  unfold finalizingBackendTypeConversionPass applyFullConversionFinalize
  rw [convertBody_id f.body hlegal, if_pos hlegal]
  dsimp only []
  rw [foldBody_id f.body [] hnofold]

/-- C6 witness: a function with one stranded `ToBuiltinTensor`
materialization makes the pass signal failure. -/
theorem finalizing_pass_stranded_materialization_fails_witness :
    (finalizingBackendTypeConversionPass strandedFunc).1 = true :=
  finalizing_pass_stranded_materialization_fails.2.2 strandedFunc
    ⟨.mat .toBuiltinTensor, [(0, .torchT .tensor)], [(1, .builtin .tensor)]⟩
    (by simp [strandedFunc]) rfl (by decide)

/-- C7 counterexample: a function with zero bridging operations whose body
is an `extf` feeding a type-restoring `truncf`: the pass succeeds but the
body is not byte-identical — the greedy `ExtFTruncFPattern` cleanup rewrote
the `truncf`, which the claim does not except. -/
theorem finalizing_pass_byte_identical_counterexample :
    (finalizingBackendTypeConversionPass extfTruncfFunc).1 = false ∧
    (finalizingBackendTypeConversionPass extfTruncfFunc).2.body ≠ extfTruncfFunc.body := by
  exact ⟨rfl, by decide⟩

/-- C7 witness: on a legal materialization-free function with nothing to
fold, the pass returns exactly the original body and the stripped
attribute list. -/
theorem finalizing_pass_frame_amended_witness :
    finalizingBackendTypeConversionPass legalGenericFunc =
      (false, ⟨stripTorchAttrs legalGenericFunc.dialectAttrs, legalGenericFunc.body⟩) :=
  finalizing_pass_frame_amended legalGenericFunc (by decide) (by decide)
